import Mathlib

/-!
Verification of the spotify-api snapshot/control utility (`spotify_api.py`).

The Python module is embedded shallowly: every request-issuing method of the
`Puller` class becomes a Lean function that consumes a mock transcript of HTTP
responses (a `List Frame`) and returns a value in the monad `M`, which pairs an
`Except PyError` result with a trace of observable effects (GET urls, sleeps,
playlist mutation calls).  Python runtime failures (NameError, KeyError,
UnboundLocalError, ...) are explicit `PyError` values; `exit()` is
`PyError.systemExit`.  An exhausted transcript is reported as
`PyError.noResponse` (the mock has no response left to deliver; real code would
block on the network).
-/

namespace Spotify

/-- Python runtime outcomes that abort a call in `spotify_api.py`. -/
inductive PyError where
  | nameError
  | attributeError
  | systemExit
  | keyError
  | typeError
  | unboundLocal
  | noResponse
  deriving DecidableEq, Repr

/-- A playlist mutation request issued to the API (POST add / DELETE remove). -/
inductive Mut where
  | addTrack (playlist_id track_uri : String)
  | removeTrack (playlist_id track_uri : String)
  deriving DecidableEq, Repr

/-- Observable effects of a run: GET urls in order, sleep durations in order,
mutation calls in order. -/
structure Eff where
  gets : List String
  sleeps : List Nat
  muts : List Mut
  deriving DecidableEq, Repr

def Eff.nil : Eff := ⟨[], [], []⟩

def Eff.app (a b : Eff) : Eff := ⟨a.gets ++ b.gets, a.sleeps ++ b.sleeps, a.muts ++ b.muts⟩

def getEff (url : String) : Eff := ⟨[url], [], []⟩

def sleepEff (secs : Nat) : Eff := ⟨[], [secs], []⟩

def mutEff (m : Mut) : Eff := ⟨[], [], [m]⟩

/-- Computation that may fail with a Python error while always keeping the
effect trace produced up to the failure point. -/
def M (α : Type) : Type := Except PyError α × Eff

def M.pure (a : α) : M α := (Except.ok a, Eff.nil)

def M.bind (x : M α) (f : α → M β) : M β :=
  match x with
  | (Except.error e, eff) => (Except.error e, eff)
  | (Except.ok a, eff) =>
    match f a with
    | (r, eff2) => (r, eff.app eff2)

instance : Monad M where
  pure := M.pure
  bind := M.bind

def mFail (e : PyError) : M α := (Except.error e, Eff.nil)

def mEff (eff : Eff) : M Unit := (Except.ok (), eff)

def mOfExcept (x : Except PyError α) : M α := (x, Eff.nil)

/-- Prepends an already-produced effect trace to a computation. -/
def M.withEff (pre : Eff) (x : M α) : M α := (x.1, Eff.app pre x.2)

/-- JSON values as delivered by `response.json()`. Numbers are modelled as
integers (floating-point payloads are outside the model). -/
inductive Json where
  | null
  | bool (b : Bool)
  | num (n : Int)
  | str (s : String)
  | arr (elems : List Json)
  | obj (fields : List (String × Json))

/-- Python truthiness of a JSON value (`if x:`). -/
def jsonTruthy : Json → Bool
  | Json.null => false
  | Json.bool b => b
  | Json.num n => n != 0
  | Json.str s => s != ""
  | Json.arr xs => !xs.isEmpty
  | Json.obj kvs => !kvs.isEmpty

/-- Python subscript `j[k]`: KeyError when the key is absent, TypeError when
the value is not a dict. -/
def jfield : Json → String → Except PyError Json
  | Json.obj kvs, k =>
    match kvs.lookup k with
    | some v => Except.ok v
    | none => Except.error PyError.keyError
  | _, _ => Except.error PyError.typeError

/-- Python `j.get(k, None)`: AttributeError when the value is not a dict. -/
def jget : Json → String → Except PyError Json
  | Json.obj kvs, k => Except.ok ((kvs.lookup k).getD Json.null)
  | _, _ => Except.error PyError.attributeError

/-- Subscript access that must yield a string (the callers immediately use the
value as a `str`, e.g. via `.lower()` or `.split(...)`). -/
def jfieldStr (j : Json) (k : String) : Except PyError String :=
  match jfield j k with
  | Except.error e => Except.error e
  | Except.ok (Json.str s) => Except.ok s
  | Except.ok _ => Except.error PyError.attributeError

/-- Python dict assignment `j[k] = v`: replace in place, else append. -/
def setAssoc : List (String × Json) → String → Json → List (String × Json)
  | [], k, v => [(k, v)]
  | (k0, v0) :: t, k, v =>
    if k0 == k then (k0, v) :: t else (k0, v0) :: setAssoc t k v

def jsetField : Json → String → Json → Except PyError Json
  | Json.obj kvs, k, v => Except.ok (Json.obj (setAssoc kvs k v))
  | _, _, _ => Except.error PyError.typeError

/-- One scripted HTTP response of the mock transcript. -/
structure Frame where
  status : Nat
  retryAfter : Option Nat
  body : Json

def url_token : String := "https://accounts.spotify.com/api/token"

def url_recently_played : String := "https://api.spotify.com/v1/me/player/recently-played"

def url_list_playlists : String := "https://api.spotify.com/v1/me/playlists"

def url_playlist (user_id playlist_id : String) : String :=
  "https://api.spotify.com/v1/users/" ++ user_id ++ "/playlists/" ++ playlist_id

def url_devices : String := "https://api.spotify.com/v1/me/player/devices"

def url_top (type_ : String) : String := "https://api.spotify.com/v1/me/top/" ++ type_

def url_followed_artists : String := "https://api.spotify.com/v1/me/following?type=artist"

def url_saved_albums : String := "https://api.spotify.com/v1/me/albums"

def url_saved_tracks : String := "https://api.spotify.com/v1/me/tracks"

def url_current_track : String := "https://api.spotify.com/v1/me/player/currently-playing"

def url_add_track (playlist_id : String) : String :=
  "https://api.spotify.com/v1/playlists/" ++ playlist_id ++ "/tracks"

def url_remove_track (playlist_id : String) : String :=
  "https://api.spotify.com/v1/playlists/" ++ playlist_id ++ "/tracks"

/-- Embeds `Puller._rate_limit_check`.  The 429 branch executes
`t = r.header.get('Retry-After')` where `r` is an undefined name (the parameter
is called `response`), so Python raises NameError before any sleep; the
`Retry-After` value carried by the response is never read.  400/403 call
`exit()`.  Any other non-success status sleeps 5 seconds and asks for a
retry. -/
def rate_limit_check (response : Frame) : M Bool :=
  let code := response.status
  if code == 429 then
    mFail PyError.nameError
  else if code == 200 || code == 201 then
    pure false
  else if code == 400 || code == 403 then
    mFail PyError.systemExit
  else
    M.withEff (sleepEff 5) (pure true)

/-- Shared shape of every `if self._rate_limit_check(r): ... ` call site: the
request effect `pre` happens first, then the check decides between the retry
continuation and the success continuation. -/
def afterCheck (pre : Eff) (r : Frame) (onRetry : M α) (onOk : M α) : M α :=
  match rate_limit_check r with
  | (Except.error e, eff) => (Except.error e, Eff.app pre eff)
  | (Except.ok true, eff) => M.withEff (Eff.app pre eff) onRetry
  | (Except.ok false, eff) => M.withEff (Eff.app pre eff) onOk

/-- Embeds `Puller.get_top`.  The retry branch invokes `self.get_tops(...)`,
a method that does not exist on the class, so Python raises AttributeError
instead of retrying. -/
def get_top (type_ time_range : String) : List Frame → M Json
  | [] => mFail PyError.noResponse
  | r :: _ =>
    afterCheck (getEff (url_top type_)) r
      (mFail PyError.attributeError)
      (pure r.body)

/-- Embeds `Puller.get_devices` (retry by self-call). -/
def get_devices : List Frame → M Json
  | [] => mFail PyError.noResponse
  | r :: rest =>
    afterCheck (getEff url_devices) r
      (get_devices rest)
      (pure r.body)

/-- Embeds `items = page['items']` together with the `items += page['items']`
list concatenations of `_iterate_paging_object`: the value must be a list. -/
def pageItems (page : Json) : Except PyError (List Json) :=
  match jfield page "items" with
  | Except.error e => Except.error e
  | Except.ok (Json.arr xs) => Except.ok xs
  | Except.ok _ => Except.error PyError.typeError

/-- The `while page['next']:` loop body of `Puller._iterate_paging_object`:
pop scripted responses for `sess.get(page['next'])`, repeating while
`_rate_limit_check` requests a retry, then append the new page's items. -/
def drainPages : List Frame → Json → List Json → M (List Json)
  | script, page, acc =>
    match jfield page "next" with
    | Except.error e => mFail e
    | Except.ok nxt =>
      if jsonTruthy nxt then
        match nxt with
        | Json.str url =>
          match script with
          | [] => mFail PyError.noResponse
          | r :: rest =>
            afterCheck (getEff url) r
              (drainPages rest page acc)
              (match pageItems r.body with
               | Except.error e => mFail e
               | Except.ok newItems => drainPages rest r.body (acc ++ newItems))
        | _ => mFail PyError.typeError
      else
        pure acc

/-- Embeds `Puller._iterate_paging_object`. -/
def iterate_paging_object (script : List Frame) (first_page : Json) : M (List Json) :=
  match pageItems first_page with
  | Except.error e => mFail e
  | Except.ok items => drainPages script first_page items

/-- Embeds `Puller._get_a_playlist` (retry by self-call; then drains the
nested `tracks` paging object and assigns the flat list back into the
playlist dict). -/
def get_a_playlist (user_id playlist_id : String) : List Frame → M Json
  | [] => mFail PyError.noResponse
  | r :: rest =>
    afterCheck (getEff (url_playlist user_id playlist_id)) r
      (get_a_playlist user_id playlist_id rest)
      (match jfield r.body "tracks" with
       | Except.error e => mFail e
       | Except.ok tracksPage =>
         match iterate_paging_object rest tracksPage with
         | (Except.error e, eff) => (Except.error e, eff)
         | (Except.ok tracks, eff) =>
           (jsetField r.body "tracks" (Json.arr tracks), eff))

/-- Embeds the closure `get_full_playlist` inside `Puller.get_playlists`:
`self._get_a_playlist(playlist['owner']['id'], playlist['id'])`. -/
def get_full_playlist (p : Json) (script : List Frame) : M Json := do
  let owner ← mOfExcept (jfield p "owner")
  let owner_id ← mOfExcept (jfieldStr owner "id")
  let pid ← mOfExcept (jfieldStr p "id")
  get_a_playlist owner_id pid script

/-- The list comprehension of `Puller.get_playlists`, with one transcript per
playlist fetch drawn positionally from `aux`. -/
def mapFullPlaylists : List Json → List (List Frame) → M (List Json)
  | [], _ => pure []
  | _ :: _, [] => mFail PyError.noResponse
  | p :: ps, a :: aux =>
    match get_full_playlist p a with
    | (Except.error e, eff) => (Except.error e, eff)
    | (Except.ok full, eff) =>
      match mapFullPlaylists ps aux with
      | (Except.error e, eff2) => (Except.error e, Eff.app eff eff2)
      | (Except.ok restFull, eff2) => (Except.ok (full :: restFull), Eff.app eff eff2)

mutual

/-- Embeds `Puller.get_playlists_short`.  Note the retry branch of the source
calls `self.get_playlists()` — the full-playlist method — not itself. -/
def get_playlists_short : List Frame → List (List Frame) → M (List Json)
  | [], _ => mFail PyError.noResponse
  | r :: rest, aux =>
    afterCheck (getEff url_list_playlists) r
      (get_playlists rest aux)
      (iterate_paging_object rest r.body)

/-- Embeds `Puller.get_playlists`. -/
def get_playlists : List Frame → List (List Frame) → M (List Json)
  | script, aux =>
    match get_playlists_short script aux with
    | (Except.error e, eff) => (Except.error e, eff)
    | (Except.ok shorts, eff) => M.withEff eff (mapFullPlaylists shorts aux)

end

/-- Embeds `Puller._get_simple_endpoint` (retry by self-call). -/
def get_simple_endpoint (url : String) : List Frame → M Json
  | [] => mFail PyError.noResponse
  | r :: rest =>
    afterCheck (getEff url) r
      (get_simple_endpoint url rest)
      (pure r.body)

/-- Embeds `Puller.get_recently_played`: the body calls
`self._get_simple_endpoint(url)` but has no `return` statement, so the Python
function returns None (modelled as `Json.null`). -/
def get_recently_played (script : List Frame) : M Json := do
  let _ ← get_simple_endpoint url_recently_played script
  pure Json.null

/-- Embeds `Puller.get_followed_artists`: no `return`, yields None. -/
def get_followed_artists (script : List Frame) : M Json := do
  let _ ← get_simple_endpoint url_followed_artists script
  pure Json.null

/-- Embeds `Puller.get_saved_albums`: no `return`, yields None. -/
def get_saved_albums (script : List Frame) : M Json := do
  let _ ← get_simple_endpoint url_saved_albums script
  pure Json.null

/-- Embeds `Puller.get_saved_tracks`: no `return`, yields None. -/
def get_saved_tracks (script : List Frame) : M Json := do
  let _ ← get_simple_endpoint url_saved_tracks script
  pure Json.null

/-- Embeds `Puller.get_current_track` (retry by self-call). -/
def get_current_track : List Frame → M Json
  | [] => mFail PyError.noResponse
  | r :: rest =>
    afterCheck (getEff url_current_track) r
      (get_current_track rest)
      (pure r.body)

/-- Embeds `Puller.remove_track` (DELETE; retry by self-call re-issues the
request, so every attempt is recorded as a mutation call). -/
def remove_track (playlist_id track_uri : String) : List Frame → M Json
  | [] => mFail PyError.noResponse
  | r :: rest =>
    afterCheck (mutEff (Mut.removeTrack playlist_id track_uri)) r
      (remove_track playlist_id track_uri rest)
      (pure r.body)

/-- Embeds `Puller.add_track` (POST; retry by self-call re-issues the request,
so every attempt is recorded as a mutation call). -/
def add_track (playlist_id track_uri : String) : List Frame → M Json
  | [] => mFail PyError.noResponse
  | r :: rest =>
    afterCheck (mutEff (Mut.addTrack playlist_id track_uri)) r
      (add_track playlist_id track_uri rest)
      (pure r.body)

/-- Mock transcripts feeding one `pull()` run, one field per `Puller` call in
source order. -/
structure PullScripts where
  playlists : List Frame
  playlistsAux : List (List Frame)
  recently : List Frame
  devices : List Frame
  topArtistsShort : List Frame
  topArtistsMedium : List Frame
  topArtistsLong : List Frame
  topTracksShort : List Frame
  topTracksMedium : List Frame
  topTracksLong : List Frame
  followed : List Frame
  savedAlbums : List Frame
  savedTracks : List Frame

/-- Embeds `pull()` up to the point where the snapshot dict is assembled (the
serialization and upload are modelled separately). -/
def pull (s : PullScripts) : M (List (String × Json)) := do
  let playlists ← get_playlists s.playlists s.playlistsAux
  let recently ← get_recently_played s.recently
  let devices ← get_devices s.devices
  let topArtistsShort ← get_top "artists" "short_term" s.topArtistsShort
  let topArtistsMedium ← get_top "artists" "medium_term" s.topArtistsMedium
  let topArtistsLong ← get_top "artists" "long_term" s.topArtistsLong
  let topTracksShort ← get_top "tracks" "short_term" s.topTracksShort
  let topTracksMedium ← get_top "tracks" "medium_term" s.topTracksMedium
  let topTracksLong ← get_top "tracks" "long_term" s.topTracksLong
  let followed ← get_followed_artists s.followed
  let savedAlbums ← get_saved_albums s.savedAlbums
  let savedTracks ← get_saved_tracks s.savedTracks
  pure [("playlists", Json.arr playlists),
        ("recently_played", recently),
        ("devices", devices),
        ("top_artists_short", topArtistsShort),
        ("top_artists_medium", topArtistsMedium),
        ("top_artists_long", topArtistsLong),
        ("top_tracks_short", topTracksShort),
        ("top_tracks_medium", topTracksMedium),
        ("top_tracks_long", topTracksLong),
        ("followed_artists", followed),
        ("saved_albums", savedAlbums),
        ("saved_tracks", savedTracks)]

/-- ASCII case folding of one character (the strings this program lowercases
are ASCII playlist names). -/
def lowerChar (c : Char) : Char :=
  if 65 ≤ c.toNat && c.toNat ≤ 90 then Char.ofNat (c.toNat + 32) else c

/-- Embeds Python `str.lower()` on the ASCII strings used here. -/
def pyLower (s : String) : String := String.mk (s.data.map lowerChar)

/-- Splitting a character list at every occurrence of `c` (Python
`str.split(c)` on the separator-containing strings used here). -/
def splitChar (c : Char) : List Char → List (List Char)
  | [] => [[]]
  | x :: xs =>
    let r := splitChar c xs
    if x == c then [] :: r
    else
      match r with
      | [] => [[x]]
      | h :: t => (x :: h) :: t

/-- Embeds the local helper `uri_to_id`: `uri.split(':')[-1]`. -/
def uri_to_id (uri : String) : String :=
  String.mk ((splitChar (Char.ofNat 58) uri.data).getLastD [])

/-- Python truthiness of the `target_playlist` argument (None or a string). -/
def strOptTruthy : Option String → Bool
  | none => false
  | some s => s != ""

/-- The list comprehension
`[x for x in playlists if x['name'].lower() == target_playlist]`. -/
def selectByName : List Json → String → Except PyError (List Json)
  | [], _ => Except.ok []
  | x :: xs, target =>
    match jfieldStr x "name" with
    | Except.error e => Except.error e
    | Except.ok name =>
      match selectByName xs target with
      | Except.error e => Except.error e
      | Except.ok rest =>
        Except.ok (if pyLower name == target then x :: rest else rest)

/-- The opening statement of `move_current_song`:
`if target_playlist: target_playlist = target_playlist.lower()`. -/
def lowerTarget : Option String → Option String
  | none => none
  | some t => if t == "" then some t else some (pyLower t)

/-- The comparison `r['context']['type'] == 'playlist'` (a non-string value
compares unequal to a string in Python). -/
def isPlaylistType (j : Json) : Bool :=
  match j with
  | Json.str t => t == "playlist"
  | _ => false

/-- Mock transcripts feeding one `move_current_song` call. -/
structure MoveScripts where
  current : List Frame
  playlists : List Frame
  playlistsAux : List (List Frame)
  addScript : List Frame
  removeScript : List Frame

/-- Embeds `move_current_song(target_playlist, add=False)`.  The local
`source_id` is assigned only when the playback context type is exactly
"playlist"; reading it otherwise is Python's UnboundLocalError. -/
def move_current_song (target_playlist0 : Option String) (add : Bool)
    (s : MoveScripts) : M String := do
  let target_playlist : Option String := lowerTarget target_playlist0
  let r ← get_current_track s.current
  let item ← mOfExcept (jfield r "item")
  if jsonTruthy item then do
    let track_name ← mOfExcept (jfieldStr item "name")
    let track ← mOfExcept (jfieldStr item "uri")
    let context ← mOfExcept (jfield r "context")
    let ctype ← mOfExcept (jfield context "type")
    let source_id : Option String ←
      if isPlaylistType ctype then do
        let curi ← mOfExcept (jfieldStr context "uri")
        pure (some (uri_to_id curi))
      else
        pure none
    if strOptTruthy target_playlist = false then
      match source_id with
      | none => mFail PyError.unboundLocal
      | some sid => do
        let _ ← remove_track sid track s.removeScript
        pure ("\"" ++ track_name ++ "\" deleted from current playlist")
    else do
      let playlists ← get_playlists_short s.playlists s.playlistsAux
      let tp := target_playlist.getD ""
      let matched ← mOfExcept (selectByName playlists tp)
      match matched with
      | [target] => do
        let target_uri ← mOfExcept (jfieldStr target "uri")
        let target_name ← mOfExcept (jfieldStr target "name")
        let target_id := uri_to_id target_uri
        let _ ← add_track target_id track s.addScript
        if add then
          pure ("\"" ++ track_name ++ "\" added to \"" ++ target_name ++ "\"")
        else
          match source_id with
          | none => mFail PyError.unboundLocal
          | some sid => do
            let _ ← remove_track sid track s.removeScript
            pure ("\"" ++ track_name ++ "\" moved to \"" ++ target_name ++ "\"")
      | _ =>
        pure ("No such playlist " ++ String.singleton (Char.ofNat 39) ++ tp
          ++ String.singleton (Char.ofNat 39))
  else
    pure "Nothing is playing"

/-- The shared secret literal compared against the request body. -/
def apiKeySecret : String := "FcZzT3FQgNDLkZVt9WvhPXdcf5sszE1N"

/-- The comparison `j.get('api_key', None) != "..."` of `handle_api` (a
non-string value compares unequal to the secret string in Python). -/
def apiKeyOk (j : Json) : Bool :=
  match j with
  | Json.str k => k == apiKeySecret
  | _ => false

/-- The uses of `target_playlist` inside `move_current_song` require a string
(`.lower()`); a non-string raises AttributeError there. -/
def asPyStr : Json → Except PyError String
  | Json.str t => Except.ok t
  | _ => Except.error PyError.attributeError

/-- Embeds `handle_api(action)`.  The request body is `none` when neither
`request.get_json()` nor the manual `json.loads` fallback produced a value.
Note the source reads `j['target_playlist']` by subscript, which raises
KeyError when the key is absent — and for action "del" this happens after
`move_current_song(None)` has already run. -/
def handle_api (action : String) (j : Option Json) (s : MoveScripts) :
    M (String × Nat) := do
  match j with
  | none => pure ("Invalid api_key (no JSON body)", 403)
  | some jv => do
    let apiKey ← mOfExcept (jget jv "api_key")
    if apiKeyOk apiKey then do
      let resultDel : Option String ←
        if action == "del" then do
          let msg ← move_current_song none false s
          pure (some msg)
        else
          pure none
      let tp ← mOfExcept (jfield jv "target_playlist")
      if jsonTruthy tp then do
        let result : Option String ←
          if action == "move" then do
            let t ← mOfExcept (asPyStr tp)
            let msg ← move_current_song (some t) false s
            pure (some msg)
          else if action == "add" then do
            let t ← mOfExcept (asPyStr tp)
            let msg ← move_current_song (some t) true s
            pure (some msg)
          else
            pure resultDel
        match result with
        | some msg => pure (msg, 200)
        | none => mFail PyError.unboundLocal
      else
        pure ("No target_playlist", 403)
    else
      pure ("Invalid api_key", 403)

def quoteChar : Char := Char.ofNat 34

def lbrace : Char := Char.ofNat 123

def rbrace : Char := Char.ofNat 125

def isWsChar (c : Char) : Bool := c == ' ' || c == '\t' || c == '\n' || c == '\r'

def isDigitChar (c : Char) : Bool := 48 ≤ c.toNat && c.toNat ≤ 57

def digitChar (d : Nat) : Char := Char.ofNat (48 + d)

/-- Decimal digits of `n`, least significant first. -/
def natDigitsRev (n : Nat) : List Nat :=
  if n < 10 then [n] else n % 10 :: natDigitsRev (n / 10)
decreasing_by exact Nat.div_lt_self (by omega) (by omega)

/-- Decimal rendering of a natural number, as Python prints it. -/
def natChars (n : Nat) : List Char := ((natDigitsRev n).map digitChar).reverse

/-- Decimal rendering of a Python int. -/
def intChars (n : Int) : List Char :=
  if n < 0 then '-' :: natChars n.natAbs else natChars n.natAbs

/-- The string escaping of `json.dumps`, restricted to the two characters
that occur in the well-formed (printable-ASCII) payloads of the model. -/
def escapeChar (c : Char) : List Char :=
  if c == quoteChar || c == '\\' then ['\\', c] else [c]

def escapeStr : List Char → List Char
  | [] => []
  | c :: cs => escapeChar c ++ escapeStr cs

mutual

/-- Embeds `json.dumps(data)` with its default separators `", "` and `": "`
and `ensure_ascii=True` (the well-formedness predicate `jWF` keeps every
string printable ASCII, where `dumps` escapes only `"` and backslash). -/
def dumpsVal : Json → List Char
  | Json.null => "null".data
  | Json.bool true => "true".data
  | Json.bool false => "false".data
  | Json.num n => intChars n
  | Json.str s => quoteChar :: (escapeStr s.data ++ [quoteChar])
  | Json.arr xs => '[' :: dumpsArrBody xs
  | Json.obj kvs => lbrace :: dumpsObjBody kvs

def dumpsArrBody : List Json → List Char
  | [] => [']']
  | x :: t => dumpsVal x ++ dumpsArrTail t

def dumpsArrTail : List Json → List Char
  | [] => [']']
  | x :: t => ',' :: ' ' :: (dumpsVal x ++ dumpsArrTail t)

def dumpsObjBody : List (String × Json) → List Char
  | [] => [rbrace]
  | (k, v) :: t =>
    quoteChar :: (escapeStr k.data ++ quoteChar :: ':' :: ' ' :: (dumpsVal v ++ dumpsObjTail t))

def dumpsObjTail : List (String × Json) → List Char
  | [] => [rbrace]
  | (k, v) :: t =>
    ',' :: ' ' :: quoteChar ::
      (escapeStr k.data ++ quoteChar :: ':' :: ' ' :: (dumpsVal v ++ dumpsObjTail t))

end

/-- Whitespace skipping of `json.loads`. -/
def skipWs : List Char → List Char
  | [] => []
  | c :: cs => if isWsChar c then skipWs cs else c :: cs

/-- String-literal body scanning of `json.loads` (after the opening quote),
handling the escapes `dumps` emits on well-formed payloads. -/
def parseStrBody : List Char → Option (List Char × List Char)
  | [] => none
  | c :: cs =>
    if c == quoteChar then some ([], cs)
    else if c == '\\' then
      match cs with
      | [] => none
      | e :: cs2 =>
        if e == quoteChar || e == '\\' then
          match parseStrBody cs2 with
          | none => none
          | some (s, r) => some (e :: s, r)
        else none
    else
      match parseStrBody cs with
      | none => none
      | some (s, r) => some (c :: s, r)

/-- Longest digit prefix of the input. -/
def spanDigits : List Char → List Char × List Char
  | [] => ([], [])
  | c :: cs =>
    if isDigitChar c then
      match spanDigits cs with
      | (a, b) => (c :: a, b)
    else ([], c :: cs)

def digitsValAux : Nat → List Char → Nat
  | acc, [] => acc
  | acc, c :: cs => digitsValAux (10 * acc + (c.toNat - 48)) cs

/-- Integer-literal parsing of `json.loads` (the model's payloads carry no
floats, so no fraction or exponent forms arise). -/
def parseNum : List Char → Option (Json × List Char)
  | '-' :: cs =>
    match spanDigits cs with
    | ([], _) => none
    | (ds, r) => some (Json.num (-(digitsValAux 0 ds : Int)), r)
  | cs =>
    match spanDigits cs with
    | ([], _) => none
    | (ds, r) => some (Json.num (digitsValAux 0 ds), r)

mutual

/-- Value parsing of `json.loads`, with a recursion budget. -/
def parseVal : Nat → List Char → Option (Json × List Char)
  | 0, _ => none
  | Nat.succ fuel, cs =>
    match skipWs cs with
    | [] => none
    | c :: r =>
      if isDigitChar c || c == '-' then parseNum (c :: r)
      else if c == 'n' then
        match r with
        | 'u' :: 'l' :: 'l' :: r2 => some (Json.null, r2)
        | _ => none
      else if c == 't' then
        match r with
        | 'r' :: 'u' :: 'e' :: r2 => some (Json.bool true, r2)
        | _ => none
      else if c == 'f' then
        match r with
        | 'a' :: 'l' :: 's' :: 'e' :: r2 => some (Json.bool false, r2)
        | _ => none
      else if c == quoteChar then
        match parseStrBody r with
        | none => none
        | some (s, r2) => some (Json.str (String.mk s), r2)
      else if c == '[' then
        match skipWs r with
        | ']' :: r2 => some (Json.arr [], r2)
        | r1 =>
          match parseVal fuel r1 with
          | none => none
          | some (v, r2) =>
            match parseItems fuel r2 with
            | none => none
            | some (vs, r3) => some (Json.arr (v :: vs), r3)
      else if c == lbrace then
        match skipWs r with
        | [] => none
        | c2 :: r2 =>
          if c2 == rbrace then some (Json.obj [], r2)
          else if c2 == quoteChar then
            match parseStrBody r2 with
            | none => none
            | some (k, r3) =>
              match skipWs r3 with
              | ':' :: r4 =>
                match parseVal fuel r4 with
                | none => none
                | some (v, r5) =>
                  match parseFields fuel r5 with
                  | none => none
                  | some (kvs, r6) => some (Json.obj ((String.mk k, v) :: kvs), r6)
              | _ => none
          else none
      else none

/-- Parsing the rest of an array (after its first element). -/
def parseItems : Nat → List Char → Option (List Json × List Char)
  | 0, _ => none
  | Nat.succ fuel, cs =>
    match skipWs cs with
    | ']' :: r => some ([], r)
    | ',' :: r =>
      match parseVal fuel r with
      | none => none
      | some (v, r2) =>
        match parseItems fuel r2 with
        | none => none
        | some (vs, r3) => some (v :: vs, r3)
    | _ => none

/-- Parsing the rest of an object (after its first member). -/
def parseFields : Nat → List Char → Option (List (String × Json) × List Char)
  | 0, _ => none
  | Nat.succ fuel, cs =>
    match skipWs cs with
    | [] => none
    | c :: r =>
      if c == rbrace then some ([], r)
      else if c == ',' then
        match skipWs r with
        | c2 :: r2 =>
          if c2 == quoteChar then
            match parseStrBody r2 with
            | none => none
            | some (k, r3) =>
              match skipWs r3 with
              | ':' :: r4 =>
                match parseVal fuel r4 with
                | none => none
                | some (v, r5) =>
                  match parseFields fuel r5 with
                  | none => none
                  | some (kvs, r6) => some ((String.mk k, v) :: kvs, r6)
              | _ => none
          else none
        | [] => none
      else none

end

/-- Embeds `json.loads` on a decoded text: parse one value, then require only
trailing whitespace. -/
def loads (cs : List Char) : Option Json :=
  match parseVal (cs.length + 1) cs with
  | some (j, rest) => if (skipWs rest).isEmpty then some j else none
  | none => none

/-- UTF-8 encoding of the ASCII text produced by `json.dumps` (with the
default `ensure_ascii=True` the serialized form is pure ASCII, one byte per
character). -/
def utf8Encode (cs : List Char) : List Nat := cs.map Char.toNat

def utf8Decode (bs : List Nat) : List Char := bs.map Char.ofNat

/-- Modelled from the spec: `gzip.compress` and `gzip.decompress` of the
Python standard library (collaborators external to this repository, named by
the spec's round-trip property) form a lossless byte codec; the model stores
the payload behind the gzip magic/method header bytes, keeping the codec's
defining property `decompress (compress b) = b` while abstracting DEFLATE
bit-packing. -/
def gzipCompress (bs : List Nat) : List Nat := 31 :: 139 :: 8 :: bs

def gzipDecompress : List Nat → Option (List Nat)
  | 31 :: 139 :: 8 :: bs => some bs
  | _ => none

/-- Printable-ASCII check for one character. -/
def asciiOk (c : Char) : Bool := 32 ≤ c.toNat && c.toNat ≤ 126

def strWF (s : String) : Bool := s.data.all asciiOk

/-- Payloads within the model's fragment: printable-ASCII strings and keys,
no duplicate keys in one object (Python dicts cannot carry duplicates). -/
def jWF : Json → Bool
  | Json.null => true
  | Json.bool _ => true
  | Json.num _ => true
  | Json.str s => strWF s
  | Json.arr [] => true
  | Json.arr (x :: xs) => jWF x && jWF (Json.arr xs)
  | Json.obj [] => true
  | Json.obj ((k, v) :: t) =>
    strWF k && (t.all fun kv => kv.1 != k) && jWF v && jWF (Json.obj t)

mutual

/-- Recursion budget sufficient for `parseVal` on a rendered value. -/
def jNeed : Json → Nat
  | Json.arr [] => 1
  | Json.arr (x :: t) => 1 + max (jNeed x) (jNeedA t)
  | Json.obj [] => 1
  | Json.obj ((_, v) :: t) => 1 + max (jNeed v) (jNeedF t)
  | _ => 1

/-- Recursion budget sufficient for `parseItems` on a rendered array tail. -/
def jNeedA : List Json → Nat
  | [] => 1
  | x :: t => 1 + max (jNeed x) (jNeedA t)

/-- Recursion budget sufficient for `parseFields` on a rendered object
tail. -/
def jNeedF : List (String × Json) → Nat
  | [] => 1
  | (_, v) :: t => 1 + max (jNeed v) (jNeedF t)

end

def okFrame (b : Json) : Frame := ⟨200, none, b⟩

/-- A currently-playing item as the API reports it. -/
def itemSong : Json :=
  Json.obj [("name", Json.str "Song"), ("uri", Json.str "spotify:track:t1")]

/-- Playback response whose context is an album, not a playlist. -/
def ctxAlbumBody : Json :=
  Json.obj [("item", itemSong),
    ("context", Json.obj [("type", Json.str "album"), ("uri", Json.str "spotify:album:a1")])]

/-- Playback response whose context is a playlist. -/
def ctxPlaylistBody : Json :=
  Json.obj [("item", itemSong),
    ("context", Json.obj [("type", Json.str "playlist"), ("uri", Json.str "spotify:playlist:src")])]

/-- Playback response with nothing playing (`item` is null). -/
def nothingPlayingBody : Json :=
  Json.obj [("item", Json.null), ("context", Json.null)]

/-- A short playlist entry named Mix. -/
def mixPlaylist : Json :=
  Json.obj [("name", Json.str "Mix"), ("uri", Json.str "spotify:playlist:tgt")]

/-- A single-page paging object delivering `xs`. -/
def onePage (xs : List Json) : Json :=
  Json.obj [("items", Json.arr xs), ("next", Json.null)]

/-- A paging object delivering `xs` with a next-page URL. -/
def pageWithNext (xs : List Json) (url : String) : Json :=
  Json.obj [("items", Json.arr xs), ("next", Json.str url)]

/-- The JSON body of one page of a paginated listing: its items and its
`next` cursor (null when absent). -/
def pageBody (p : List Json × Option String) : Json :=
  Json.obj [("items", Json.arr p.1),
    ("next", match p.2 with | none => Json.null | some u => Json.str u)]

/-- A 200 response delivering one page of a paginated listing. -/
def pageFrame (p : List Json × Option String) : Frame := ⟨200, none, pageBody p⟩

/-- A well-formed cursor chain: every page except the last carries a nonempty
`next` URL, the last page's `next` is null. -/
def chainOk : List (List Json × Option String) → Bool
  | [] => true
  | [(_, none)] => true
  | [(_, some _)] => false
  | (_, none) :: _ :: _ => false
  | (_, some u) :: p :: rest => (u != "") && chainOk (p :: rest)

/-- The `next` URLs a drain of the chain will GET, in order. -/
def linkUrls : List (List Json × Option String) → List String
  | [] => []
  | (_, none) :: rest => linkUrls rest
  | (_, some u) :: rest => u :: linkUrls rest

/-- Short playlist entry used by the `pull()` fixture. -/
def c3short : Json :=
  Json.obj [("owner", Json.obj [("id", Json.str "u1")]), ("id", Json.str "p1"),
    ("name", Json.str "P"), ("uri", Json.str "spotify:playlist:p1")]

/-- Full playlist body used by the `pull()` fixture: its `tracks` field is a
one-page paging object. -/
def c3full : Json :=
  Json.obj [("name", Json.str "P"), ("tracks", onePage [Json.str "t1"])]

/-- A nonempty response body delivered to every simple endpoint of the
`pull()` fixture. -/
def c3body (tag : String) : Json :=
  Json.obj [("items", Json.arr [Json.str tag])]

/-- Mock transcripts for one full `pull()` run: every endpoint answers 200
with a nonempty body. -/
def c3scr : PullScripts :=
  ⟨[okFrame (onePage [c3short])], [[okFrame c3full]],
   [okFrame (c3body "recent")], [okFrame (c3body "device")],
   [okFrame (c3body "tas")], [okFrame (c3body "tam")], [okFrame (c3body "tal")],
   [okFrame (c3body "tts")], [okFrame (c3body "ttm")], [okFrame (c3body "ttl")],
   [okFrame (c3body "fa")], [okFrame (c3body "sa")], [okFrame (c3body "st")]⟩

/-- The snapshot dict `pull()` assembles on the fixture `c3scr`. -/
def c3doc : List (String × Json) :=
  [("playlists", Json.arr [Json.obj [("name", Json.str "P"),
      ("tracks", Json.arr [Json.str "t1"])]]),
   ("recently_played", Json.null),
   ("devices", c3body "device"),
   ("top_artists_short", c3body "tas"),
   ("top_artists_medium", c3body "tam"),
   ("top_artists_long", c3body "tal"),
   ("top_tracks_short", c3body "tts"),
   ("top_tracks_medium", c3body "ttm"),
   ("top_tracks_long", c3body "ttl"),
   ("followed_artists", Json.null),
   ("saved_albums", Json.null),
   ("saved_tracks", Json.null)]

/-- The continuation after a rendered number must not start with another
digit (inside rendered arrays and objects it starts with a separator or a
closing bracket, and the top level ends the input). -/
def headNotDigit : List Char → Bool
  | [] => true
  | c :: _ => !isDigitChar c

@[simp] theorem Eff.app_nil (a : Eff) : Eff.app a Eff.nil = a := by
  cases a; simp [Eff.app, Eff.nil]

@[simp] theorem Eff.nil_app (a : Eff) : Eff.app Eff.nil a = a := by
  cases a; simp [Eff.app, Eff.nil]

theorem Eff.app_assoc (a b c : Eff) :
    Eff.app (Eff.app a b) c = Eff.app a (Eff.app b c) := by
  cases a; cases b; cases c; simp [Eff.app]

@[simp] theorem M.bindDef (x : M α) (f : α → M β) : x >>= f = M.bind x f := rfl

@[simp] theorem M.pureDef (a : α) : (pure a : M α) = (Except.ok a, Eff.nil) := rfl

@[simp] theorem M.bind_error (e : PyError) (eff : Eff) (f : α → M β) :
    M.bind (Except.error e, eff) f = (Except.error e, eff) := rfl

@[simp] theorem M.bind_ok (a : α) (eff : Eff) (f : α → M β) :
    M.bind (Except.ok a, eff) f = ((f a).1, eff.app (f a).2) := rfl

@[simp] theorem M.withEff_pair (pre : Eff) (r : Except PyError α) (eff : Eff) :
    M.withEff pre (r, eff) = (r, pre.app eff) := rfl

@[simp] theorem mOfExcept_ok (a : α) :
    mOfExcept (Except.ok a) = ((Except.ok a, Eff.nil) : M α) := rfl

@[simp] theorem mOfExcept_error (e : PyError) :
    mOfExcept (Except.error e) = ((Except.error e, Eff.nil) : M α) := rfl

/-- Lowercasing a nonempty string leaves it nonempty, so Python truthiness of
the target survives the lowering. -/
@[simp] theorem strOptTruthy_lowerTarget (target : Option String) :
    strOptTruthy (lowerTarget target) = strOptTruthy target := by
  cases target with
  | none => rfl
  | some t =>
    by_cases h : t = ""
    · subst h; rfl
    · have hd : t.data ≠ [] := by
        intro hdata
        apply h
        cases t with
        | mk d =>
          have hnil : d = [] := hdata
          subst hnil
          rfl
      have hne : String.mk (List.map lowerChar t.data) ≠ "" := by
        intro he
        have hmap : List.map lowerChar t.data = [] := by
          have := congrArg String.data he
          simpa using this
        simp only [List.map_eq_nil_iff] at hmap
        exact hd hmap
      have h1 : (pyLower t != "") = true := by
        rw [bne_iff_ne]
        exact hne
      have h2 : (t != "") = true := by
        rw [bne_iff_ne]
        exact h
      simp only [lowerTarget, beq_iff_eq, h, if_false, strOptTruthy]
      rw [h1, h2]

/-- Evaluating `_rate_limit_check` on a success status. -/
@[simp] theorem rate_limit_check_ok (st : Nat) (ra : Option Nat) (b : Json)
    (h : st = 200 ∨ st = 201) :
    rate_limit_check ⟨st, ra, b⟩ = (Except.ok false, Eff.nil) := by
  rcases h with h | h <;> subst h <;> rfl

/-- C2: the spec says a 429 response makes the client read `Retry-After`,
sleep that long, and resend, while a 200 response is returned without any
sleep.  The code's 429 branch reads `r.header` where `r` is an undefined
name, so a 429 response raises NameError with no sleep and no resend; the
200 branch does return without sleeping.  Evaluated at a 429 frame carrying
`Retry-After: 3` and at a 200 frame. -/
theorem c2_rate_limit_429_crashes :
    rate_limit_check ⟨429, some 3, Json.null⟩
      = (Except.error PyError.nameError, Eff.nil) ∧
    rate_limit_check ⟨200, none, Json.obj [("items", Json.arr [])]⟩
      = (Except.ok false, Eff.nil) :=
  ⟨rfl, rfl⟩

/-- C9 counterexample: the claim says a 429 first response makes `get_top`
raise AttributeError; in fact `_rate_limit_check` raises NameError (undefined
`r`) before the nonexistent `get_tops` is ever looked up. -/
theorem c9_counterexample :
    get_top "artists" "long_term" [⟨429, some 1, Json.null⟩]
        = (Except.error PyError.nameError, ⟨[url_top "artists"], [], []⟩) ∧
      PyError.nameError ≠ PyError.attributeError :=
  ⟨rfl, by decide⟩

/-- C9 (amended): classifying `get_top` by the status of the first response:
200/201 returns the parsed body; 400/403 exits the process; 429 raises
NameError inside `_rate_limit_check`; every other status sleeps 5 seconds and
then raises AttributeError because the retry path invokes the nonexistent
method `get_tops`. -/
theorem c9_get_top_status (type_ time_range : String) (r : Frame)
    (rest : List Frame) :
    (r.status = 200 ∨ r.status = 201 →
      get_top type_ time_range (r :: rest)
        = (Except.ok r.body, ⟨[url_top type_], [], []⟩)) ∧
    (r.status = 429 →
      get_top type_ time_range (r :: rest)
        = (Except.error PyError.nameError, ⟨[url_top type_], [], []⟩)) ∧
    (r.status = 400 ∨ r.status = 403 →
      get_top type_ time_range (r :: rest)
        = (Except.error PyError.systemExit, ⟨[url_top type_], [], []⟩)) ∧
    (r.status ≠ 200 → r.status ≠ 201 → r.status ≠ 400 → r.status ≠ 403 →
      r.status ≠ 429 →
      get_top type_ time_range (r :: rest)
        = (Except.error PyError.attributeError, ⟨[url_top type_], [5], []⟩)) := by
  obtain ⟨st, ra, b⟩ := r
  refine ⟨?_, ?_, ?_, ?_⟩
  · rintro (h | h) <;> subst h <;> rfl
  · rintro h; subst h; rfl
  · rintro (h | h) <;> subst h <;> rfl
  · intro h1 h2 h3 h4 h5
    simp [get_top, afterCheck, rate_limit_check, h1, h2, h3, h4, h5, M.withEff,
      mFail, sleepEff, getEff, Eff.app, Eff.nil, instMonadM, M.pure]

/-- C9 witness: a 500 first response ends in AttributeError after a 5 second
sleep. -/
theorem c9_witness :
    get_top "artists" "long_term" [⟨500, none, Json.null⟩]
      = (Except.error PyError.attributeError, ⟨[url_top "artists"], [5], []⟩) :=
  (c9_get_top_status "artists" "long_term" ⟨500, none, Json.null⟩ []).2.2.2
    (by decide) (by decide) (by decide) (by decide) (by decide)

/-- C7: with a 200 playback response whose `item` is falsy, a move, add or
delete request returns "Nothing is playing" after the single playback GET,
and records no mutation calls, whatever the other transcripts hold. -/
theorem c7_nothing_playing (target : Option String) (add : Bool) (b itemv : Json)
    (pl : List Frame) (aux : List (List Frame)) (aScr rScr : List Frame)
    (hitem : jfield b "item" = Except.ok itemv)
    (hfalsy : jsonTruthy itemv = false) :
    move_current_song target add ⟨[okFrame b], pl, aux, aScr, rScr⟩
      = (Except.ok "Nothing is playing", ⟨[url_current_track], [], []⟩) := by
  simp [move_current_song, get_current_track, afterCheck, rate_limit_check,
    okFrame, M.withEff, mOfExcept, mFail, getEff, Eff.app, Eff.nil, hitem,
    hfalsy, instMonadM, M.pure]

/-- C7 witness: a playback response with a null `item`. -/
theorem c7_witness :
    move_current_song (some "Mix") true ⟨[okFrame nothingPlayingBody], [], [], [], []⟩
      = (Except.ok "Nothing is playing", ⟨[url_current_track], [], []⟩) :=
  c7_nothing_playing (some "Mix") true nothingPlayingBody Json.null [] [] [] []
    rfl rfl

/-- C5 counterexample: a delete request while a track plays in an album
context does not return a descriptive message — it fails with Python's
UnboundLocalError on `source_id` (though indeed no `remove_track` call is
recorded). -/
theorem c5_counterexample :
    move_current_song none false ⟨[okFrame ctxAlbumBody], [], [], [], []⟩
      = (Except.error PyError.unboundLocal, ⟨[url_current_track], [], []⟩) := rfl

/-- C5 (amended): when a track is playing but the playback context type is
not "playlist", a delete request (falsy `target_playlist`) performs no
destructive call — but instead of returning a descriptive message it raises
UnboundLocalError, because `source_id` was never assigned. -/
theorem c5_delete_no_playlist_context (target : Option String) (add : Bool)
    (b itemv ctxv ctypev : Json) (nm uri : String)
    (pl : List Frame) (aux : List (List Frame)) (aScr rScr : List Frame)
    (hitem : jfield b "item" = Except.ok itemv)
    (htruthy : jsonTruthy itemv = true)
    (hname : jfieldStr itemv "name" = Except.ok nm)
    (huri : jfieldStr itemv "uri" = Except.ok uri)
    (hctx : jfield b "context" = Except.ok ctxv)
    (hct : jfield ctxv "type" = Except.ok ctypev)
    (hnotpl : isPlaylistType ctypev = false)
    (htf : strOptTruthy target = false) :
    move_current_song target add ⟨[okFrame b], pl, aux, aScr, rScr⟩
      = (Except.error PyError.unboundLocal, ⟨[url_current_track], [], []⟩) := by
  simp [move_current_song, get_current_track, afterCheck, rate_limit_check,
    okFrame, M.withEff, mOfExcept, mFail, getEff, Eff.app, Eff.nil, hitem,
    htruthy, hname, huri, hctx, hct, hnotpl, htf, instMonadM, M.pure]

/-- C5 witness: an empty-string target (also falsy in Python) with an album
playback context. -/
theorem c5_witness :
    move_current_song (some "") false ⟨[okFrame ctxAlbumBody], [], [], [], []⟩
      = (Except.error PyError.unboundLocal, ⟨[url_current_track], [], []⟩) :=
  c5_delete_no_playlist_context (some "") false ctxAlbumBody itemSong
    (Json.obj [("type", Json.str "album"), ("uri", Json.str "spotify:album:a1")])
    (Json.str "album") "Song" "spotify:track:t1" [] [] [] []
    rfl rfl rfl rfl rfl rfl rfl rfl

/-- C10: a move request (add=False) while the playback context is not a
playlist and exactly one playlist matches the target name performs the
`add_track` mutation on the resolved target and then dies with
UnboundLocalError on `source_id` before any `remove_track` — the track is
added but never removed. -/
theorem c10_move_not_atomic (tp : String) (b itemv ctxv ctypev tgt : Json)
    (nm uri turi tname : String) (xs : List Json) (aux : List (List Frame))
    (abody : Json) (rScr : List Frame)
    (hitem : jfield b "item" = Except.ok itemv)
    (htruthy : jsonTruthy itemv = true)
    (hname : jfieldStr itemv "name" = Except.ok nm)
    (huri : jfieldStr itemv "uri" = Except.ok uri)
    (hctx : jfield b "context" = Except.ok ctxv)
    (hct : jfield ctxv "type" = Except.ok ctypev)
    (hnotpl : isPlaylistType ctypev = false)
    (hlow : lowerTarget (some tp) = some (pyLower tp))
    (hne : (pyLower tp != "") = true)
    (hsel : selectByName xs (pyLower tp) = Except.ok [tgt])
    (huriT : jfieldStr tgt "uri" = Except.ok turi)
    (hnameT : jfieldStr tgt "name" = Except.ok tname) :
    move_current_song (some tp) false
        ⟨[okFrame b], [okFrame (onePage xs)], aux, [okFrame abody], rScr⟩
      = (Except.error PyError.unboundLocal,
          ⟨[url_current_track, url_list_playlists], [],
            [Mut.addTrack (uri_to_id turi) uri]⟩) := by
  have hpi : pageItems (onePage xs) = Except.ok xs := rfl
  have hnx : jfield (onePage xs) "next" = Except.ok Json.null := rfl
  have hjn : jsonTruthy Json.null = false := rfl
  simp [move_current_song, get_current_track, get_playlists_short,
    iterate_paging_object, drainPages, add_track, afterCheck,
    rate_limit_check, okFrame, M.withEff, mOfExcept, mFail, getEff,
    mutEff, Eff.app, Eff.nil, hitem, htruthy, hname, huri, hctx, hct, hnotpl,
    hlow, hne, hsel, huriT, hnameT, hpi, hnx, hjn, strOptTruthy,
    instMonadM, M.pure]

/-- C10 witness: album context, one playlist named Mix, target "mix". -/
theorem c10_witness :
    move_current_song (some "Mix") false
        ⟨[okFrame ctxAlbumBody], [okFrame (onePage [mixPlaylist])], [],
          [okFrame Json.null], []⟩
      = (Except.error PyError.unboundLocal,
          ⟨[url_current_track, url_list_playlists], [],
            [Mut.addTrack "tgt" "spotify:track:t1"]⟩) :=
  c10_move_not_atomic "Mix" ctxAlbumBody itemSong
    (Json.obj [("type", Json.str "album"), ("uri", Json.str "spotify:album:a1")])
    (Json.str "album") mixPlaylist "Song" "spotify:track:t1"
    "spotify:playlist:tgt" "Mix" [mixPlaylist] [] Json.null []
    rfl rfl rfl rfl rfl rfl rfl rfl rfl (by simp [selectByName, mixPlaylist,
      jfieldStr, jfield, pyLower, lowerChar]) rfl rfl

/-- C6: with a track playing in a playlist context and a single-page playlist
listing, a move or add request resolves the target by case-insensitive exact
name match: a unique match receives the `add_track` mutation (and `move` then
removes from the source), while zero or several matches produce a
"No such playlist" reply with no mutation call at all. -/
theorem c6_name_resolution (tp : String) (b itemv ctxv ctypev : Json)
    (nm uri curi : String) (xs : List Json) (aux : List (List Frame))
    (abody rbody : Json)
    (hitem : jfield b "item" = Except.ok itemv)
    (htruthy : jsonTruthy itemv = true)
    (hname : jfieldStr itemv "name" = Except.ok nm)
    (huri : jfieldStr itemv "uri" = Except.ok uri)
    (hctx : jfield b "context" = Except.ok ctxv)
    (hct : jfield ctxv "type" = Except.ok ctypev)
    (hpltype : isPlaylistType ctypev = true)
    (hcuri : jfieldStr ctxv "uri" = Except.ok curi)
    (hlow : lowerTarget (some tp) = some (pyLower tp))
    (hne : (pyLower tp != "") = true) :
    (∀ tgt : Json, ∀ turi tname : String,
      selectByName xs (pyLower tp) = Except.ok [tgt] →
      jfieldStr tgt "uri" = Except.ok turi →
      jfieldStr tgt "name" = Except.ok tname →
      move_current_song (some tp) true
          ⟨[okFrame b], [okFrame (onePage xs)], aux, [okFrame abody], [okFrame rbody]⟩
        = (Except.ok ("\"" ++ nm ++ "\" added to \"" ++ tname ++ "\""),
            ⟨[url_current_track, url_list_playlists], [],
              [Mut.addTrack (uri_to_id turi) uri]⟩) ∧
      move_current_song (some tp) false
          ⟨[okFrame b], [okFrame (onePage xs)], aux, [okFrame abody], [okFrame rbody]⟩
        = (Except.ok ("\"" ++ nm ++ "\" moved to \"" ++ tname ++ "\""),
            ⟨[url_current_track, url_list_playlists], [],
              [Mut.addTrack (uri_to_id turi) uri,
               Mut.removeTrack (uri_to_id curi) uri]⟩)) ∧
    (∀ ms : List Json, selectByName xs (pyLower tp) = Except.ok ms →
      ms.length ≠ 1 → ∀ add : Bool,
      move_current_song (some tp) add
          ⟨[okFrame b], [okFrame (onePage xs)], aux, [okFrame abody], [okFrame rbody]⟩
        = (Except.ok ("No such playlist " ++ String.singleton (Char.ofNat 39)
              ++ pyLower tp ++ String.singleton (Char.ofNat 39)),
            ⟨[url_current_track, url_list_playlists], [], []⟩)) := by
  have hpi : pageItems (onePage xs) = Except.ok xs := rfl
  have hnx : jfield (onePage xs) "next" = Except.ok Json.null := rfl
  have hjn : jsonTruthy Json.null = false := rfl
  constructor
  · intro tgt turi tname hsel huriT hnameT
    constructor
    · simp [move_current_song, get_current_track, get_playlists_short,
        iterate_paging_object, drainPages, add_track, remove_track, afterCheck,
        rate_limit_check, okFrame, M.withEff, mOfExcept, mFail, getEff,
        mutEff, Eff.app, Eff.nil, hitem, htruthy, hname, huri, hctx, hct,
        hpltype, hcuri, hlow, hne, hsel, huriT, hnameT, hpi, hnx, hjn,
        strOptTruthy, instMonadM, M.pure]
    · simp [move_current_song, get_current_track, get_playlists_short,
        iterate_paging_object, drainPages, add_track, remove_track, afterCheck,
        rate_limit_check, okFrame, M.withEff, mOfExcept, mFail, getEff,
        mutEff, Eff.app, Eff.nil, hitem, htruthy, hname, huri, hctx, hct,
        hpltype, hcuri, hlow, hne, hsel, huriT, hnameT, hpi, hnx, hjn,
        strOptTruthy, instMonadM, M.pure]
  · intro ms hsel hlen add
    match ms, hsel, hlen with
    | [], hsel, hlen =>
      simp [move_current_song, get_current_track, get_playlists_short,
        iterate_paging_object, drainPages, afterCheck,
        rate_limit_check, okFrame, M.withEff, mOfExcept, mFail, getEff,
        mutEff, Eff.app, Eff.nil, hitem, htruthy, hname, huri, hctx, hct,
        hpltype, hcuri, hlow, hne, hsel, hpi, hnx, hjn,
        strOptTruthy, instMonadM, M.pure]
    | [m1], hsel, hlen => exact (hlen rfl).elim
    | m1 :: m2 :: mt, hsel, hlen =>
      simp [move_current_song, get_current_track, get_playlists_short,
        iterate_paging_object, drainPages, afterCheck,
        rate_limit_check, okFrame, M.withEff, mOfExcept, mFail, getEff,
        mutEff, Eff.app, Eff.nil, hitem, htruthy, hname, huri, hctx, hct,
        hpltype, hcuri, hlow, hne, hsel, hpi, hnx, hjn,
        strOptTruthy, instMonadM, M.pure]

/-- C6 witness: one playlist named Mix; the unique match for target "MIX"
receives the add, and target "Other" matches nothing. -/
theorem c6_witness :
    (move_current_song (some "MIX") true
        ⟨[okFrame ctxPlaylistBody], [okFrame (onePage [mixPlaylist])], [],
          [okFrame Json.null], [okFrame Json.null]⟩
      = (Except.ok ("\"Song\" added to \"Mix\""),
          ⟨[url_current_track, url_list_playlists], [],
            [Mut.addTrack "tgt" "spotify:track:t1"]⟩)) ∧
    (move_current_song (some "Other") false
        ⟨[okFrame ctxPlaylistBody], [okFrame (onePage [mixPlaylist])], [],
          [okFrame Json.null], [okFrame Json.null]⟩
      = (Except.ok ("No such playlist " ++ String.singleton (Char.ofNat 39)
            ++ "other" ++ String.singleton (Char.ofNat 39)),
          ⟨[url_current_track, url_list_playlists], [], []⟩)) := by
  constructor
  · exact ((c6_name_resolution "MIX" ctxPlaylistBody itemSong
      (Json.obj [("type", Json.str "playlist"), ("uri", Json.str "spotify:playlist:src")])
      (Json.str "playlist") "Song" "spotify:track:t1" "spotify:playlist:src"
      [mixPlaylist] [] Json.null Json.null
      rfl rfl rfl rfl rfl rfl rfl rfl rfl rfl).1 mixPlaylist
      "spotify:playlist:tgt" "Mix"
      (by simp [selectByName, mixPlaylist, jfieldStr, jfield, pyLower, lowerChar])
      rfl rfl).1
  · exact (c6_name_resolution "Other" ctxPlaylistBody itemSong
      (Json.obj [("type", Json.str "playlist"), ("uri", Json.str "spotify:playlist:src")])
      (Json.str "playlist") "Song" "spotify:track:t1" "spotify:playlist:src"
      [mixPlaylist] [] Json.null Json.null
      rfl rfl rfl rfl rfl rfl rfl rfl rfl rfl).2 []
      (by simp [selectByName, mixPlaylist, jfieldStr, jfield, pyLower, lowerChar])
      (by decide) false

/-- Simp facts about rendered pages. -/
@[simp] theorem pageItems_pageBody (p : List Json × Option String) :
    pageItems (pageBody p) = Except.ok p.1 := by
  obtain ⟨i, n⟩ := p
  cases n <;> rfl

@[simp] theorem pageFrame_body (p : List Json × Option String) :
    (pageFrame p).body = pageBody p := rfl

@[simp] theorem rate_limit_check_pageFrame (p : List Json × Option String) :
    rate_limit_check (pageFrame p) = (Except.ok false, Eff.nil) := rfl

/-- Draining a well-formed cursor chain from its first page returns the
accumulated items followed by every later page's items in order, GETs exactly
the chain's `next` URLs, and sleeps and mutates nothing. -/
theorem drainPages_chain (ps : List (List Json × Option String)) :
    ∀ (i0 : List Json) (n0 : Option String) (acc : List Json),
    chainOk ((i0, n0) :: ps) = true →
    drainPages (ps.map pageFrame) (pageBody (i0, n0)) acc
      = (Except.ok (acc ++ (ps.map Prod.fst).flatten),
          ⟨linkUrls ((i0, n0) :: ps), [], []⟩) := by
  induction ps with
  | nil =>
    intro i0 n0 acc hc
    cases n0 with
    | none =>
      have hnx : jfield (pageBody (i0, none)) "next" = Except.ok Json.null := rfl
      simp [drainPages, hnx, jsonTruthy, linkUrls, Eff.nil, instMonadM, M.pure]
    | some u => simp [chainOk] at hc
  | cons p1 rest ih =>
    intro i0 n0 acc hc
    obtain ⟨i1, n1⟩ := p1
    cases n0 with
    | none => simp [chainOk] at hc
    | some u =>
      have hc2 : (u != "") = true ∧ chainOk ((i1, n1) :: rest) = true := by
        simpa [chainOk, Bool.and_eq_true] using hc
      have hu : jsonTruthy (Json.str u) = true := hc2.1
      have hnx : jfield (pageBody (i0, some u)) "next"
          = Except.ok (Json.str u) := rfl
      rw [show ((i1, n1) :: rest).map pageFrame
            = pageFrame (i1, n1) :: rest.map pageFrame from rfl]
      simp [drainPages, hnx, hu, afterCheck, M.withEff, getEff, Eff.app,
        Eff.nil, ih i1 n1 (acc ++ i1) hc2.2, linkUrls]

/-- A well-formed nonempty chain makes one GET per page beyond the first. -/
theorem linkUrls_length (ps : List (List Json × Option String)) :
    chainOk ps = true → ps ≠ [] → (linkUrls ps).length + 1 = ps.length := by
  induction ps with
  | nil => intro _ h; exact (h rfl).elim
  | cons p rest ih =>
    intro hc _
    obtain ⟨i, n⟩ := p
    cases rest with
    | nil =>
      cases n with
      | none => simp [linkUrls]
      | some u => simp [chainOk] at hc
    | cons q rest2 =>
      cases n with
      | none => simp [chainOk] at hc
      | some u =>
        have hc2 : chainOk (q :: rest2) = true := by
          obtain ⟨iq, nq⟩ := q
          have h2 : ¬u = "" ∧ chainOk ((iq, nq) :: rest2) = true := by
            simpa [chainOk, Bool.and_eq_true] using hc
          exact h2.2
        have := ih hc2 (by simp)
        simp [linkUrls, this]

/-- C1: for every paginated listing delivered as a well-formed chain of N
pages (each a dict with `items` and `next`), `get_playlists_short` — the
first GET plus the `_iterate_paging_object` drain — returns exactly the
concatenation of the pages' items in page order while issuing exactly N GET
requests (the listing URL followed by each `next` URL), with no sleeps and no
mutations. -/
theorem c1_pagination_drain (ps : List (List Json × Option String))
    (aux : List (List Frame)) (hne : ps ≠ []) (hc : chainOk ps = true) :
    get_playlists_short (ps.map pageFrame) aux
      = (Except.ok (ps.map Prod.fst).flatten,
          ⟨url_list_playlists :: linkUrls ps, [], []⟩) ∧
    (url_list_playlists :: linkUrls ps).length = ps.length := by
  constructor
  · match ps, hc with
    | (i0, n0) :: rest, hc =>
      rw [show ((i0, n0) :: rest).map pageFrame
            = pageFrame (i0, n0) :: rest.map pageFrame from rfl]
      simp [get_playlists_short, afterCheck, iterate_paging_object,
        M.withEff, getEff, Eff.app, Eff.nil,
        drainPages_chain rest i0 n0 i0 hc]
  · exact linkUrls_length ps hc hne

/-- C1 witness: the spec's end-to-end scenario — page 1 holds two items and a
next URL, page 2 holds one item and no next; the drain returns the three
items in order with exactly two GETs. -/
theorem c1_witness :
    get_playlists_short
        [pageFrame ([Json.str "i1", Json.str "i2"], some "u2"),
         pageFrame ([Json.str "i3"], none)] []
      = (Except.ok [Json.str "i1", Json.str "i2", Json.str "i3"],
          ⟨[url_list_playlists, "u2"], [], []⟩) ∧
    ([url_list_playlists, "u2"] : List String).length = 2 := by
  have h := c1_pagination_drain
    [([Json.str "i1", Json.str "i2"], some "u2"), ([Json.str "i3"], none)] []
    (by simp) (by simp [chainOk])
  constructor
  · simpa [linkUrls] using h.1
  · rfl

/-- C3: evaluating one full `pull()` run on a fixture where every endpoint
answers 200 with a nonempty JSON body.  The assembled snapshot dict does have
exactly the fixed twelve endpoint keys in source order, but the claim's
"each key is mapped to that endpoint's fully-paginated JSON result" fails:
`get_recently_played`, `get_followed_artists`, `get_saved_albums` and
`get_saved_tracks` have no `return` statement, so those keys are mapped to
null even though the endpoint delivered a nonempty body. -/
theorem c3_pull_fixture :
    (pull c3scr).1 = Except.ok c3doc ∧
    c3doc.map Prod.fst = ["playlists", "recently_played", "devices",
      "top_artists_short", "top_artists_medium", "top_artists_long",
      "top_tracks_short", "top_tracks_medium", "top_tracks_long",
      "followed_artists", "saved_albums", "saved_tracks"] ∧
    c3doc.lookup "recently_played" = some Json.null ∧
    c3scr.recently.head?.map Frame.body = some (c3body "recent") ∧
    c3body "recent" ≠ Json.null := by
  refine ⟨?_, rfl, rfl, rfl, fun h => Json.noConfusion h⟩
  simp [pull, c3scr, c3doc, get_playlists, get_playlists_short,
    mapFullPlaylists, get_full_playlist, get_a_playlist,
    iterate_paging_object, drainPages, get_recently_played,
    get_simple_endpoint, get_devices, get_top, get_followed_artists,
    get_saved_albums, get_saved_tracks, afterCheck, rate_limit_check,
    okFrame, onePage, c3short, c3full, c3body, jfield, jfieldStr, jsetField,
    setAssoc, pageItems, jsonTruthy, mOfExcept, mFail, M.withEff, getEff,
    Eff.app, Eff.nil, instMonadM, M.pure, List.lookup]

/-- C4 counterexample: a `/del` request whose JSON body carries the valid
shared secret but omits `target_playlist` does not get a `(message, status)`
reply — the handler raises KeyError on `j['target_playlist']`, and only after
the delete has already removed the track from its source playlist. -/
theorem c4_counterexample :
    handle_api "del" (some (Json.obj [("api_key", Json.str apiKeySecret)]))
        ⟨[okFrame ctxPlaylistBody], [], [], [okFrame Json.null], [okFrame Json.null]⟩
      = (Except.error PyError.keyError,
          ⟨[url_current_track], [],
            [Mut.removeTrack "src" "spotify:track:t1"]⟩) := rfl

/-- C4 (amended): `handle_api` replies `(message, 200)` on success and
`(message, 403)` on a failed validation, except that a body lacking the
`target_playlist` key makes it raise KeyError instead of replying (for
`/del` after the delete already ran), and any exception out of
`move_current_song` propagates uncaught. -/
theorem c4_handle_api_behavior (s : MoveScripts) :
    (∀ action : String,
      handle_api action none s
        = (Except.ok ("Invalid api_key (no JSON body)", 403), Eff.nil)) ∧
    (∀ action : String, ∀ fields : List (String × Json),
      apiKeyOk ((fields.lookup "api_key").getD Json.null) = false →
      handle_api action (some (Json.obj fields)) s
        = (Except.ok ("Invalid api_key", 403), Eff.nil)) ∧
    (∀ fields : List (String × Json),
      apiKeyOk ((fields.lookup "api_key").getD Json.null) = true →
      fields.lookup "target_playlist" = none →
      (handle_api "move" (some (Json.obj fields)) s
          = (Except.error PyError.keyError, Eff.nil) ∧
       handle_api "add" (some (Json.obj fields)) s
          = (Except.error PyError.keyError, Eff.nil))) ∧
    (∀ fields : List (String × Json), ∀ dmsg : String, ∀ deff : Eff,
      apiKeyOk ((fields.lookup "api_key").getD Json.null) = true →
      fields.lookup "target_playlist" = none →
      move_current_song none false s = (Except.ok dmsg, deff) →
      handle_api "del" (some (Json.obj fields)) s
        = (Except.error PyError.keyError, deff)) ∧
    (∀ fields : List (String × Json), ∀ t msg : String, ∀ meff : Eff,
      apiKeyOk ((fields.lookup "api_key").getD Json.null) = true →
      fields.lookup "target_playlist" = some (Json.str t) →
      (t != "") = true →
      move_current_song (some t) false s = (Except.ok msg, meff) →
      handle_api "move" (some (Json.obj fields)) s
        = (Except.ok (msg, 200), meff)) ∧
    (∀ fields : List (String × Json), ∀ t msg : String, ∀ meff : Eff,
      apiKeyOk ((fields.lookup "api_key").getD Json.null) = true →
      fields.lookup "target_playlist" = some (Json.str t) →
      (t != "") = true →
      move_current_song (some t) true s = (Except.ok msg, meff) →
      handle_api "add" (some (Json.obj fields)) s
        = (Except.ok (msg, 200), meff)) ∧
    (∀ fields : List (String × Json), ∀ t dmsg : String, ∀ deff : Eff,
      apiKeyOk ((fields.lookup "api_key").getD Json.null) = true →
      fields.lookup "target_playlist" = some (Json.str t) →
      (t != "") = true →
      move_current_song none false s = (Except.ok dmsg, deff) →
      handle_api "del" (some (Json.obj fields)) s
        = (Except.ok (dmsg, 200), deff)) ∧
    (∀ fields : List (String × Json),
      apiKeyOk ((fields.lookup "api_key").getD Json.null) = true →
      fields.lookup "target_playlist" = some Json.null →
      (handle_api "move" (some (Json.obj fields)) s
          = (Except.ok ("No target_playlist", 403), Eff.nil) ∧
       handle_api "add" (some (Json.obj fields)) s
          = (Except.ok ("No target_playlist", 403), Eff.nil))) := by
  refine ⟨?_, ?_, ?_, ?_, ?_, ?_, ?_, ?_⟩
  · intro action; rfl
  · intro action fields hbad
    simp [handle_api, jget, hbad, instMonadM, M.pure, Eff.nil, Eff.app]
  · intro fields hok habsent
    constructor <;>
      simp [handle_api, jget, jfield, hok, habsent, mOfExcept, mFail,
        instMonadM, M.pure, Eff.nil, Eff.app]
  · intro fields dmsg deff hok habsent hdel
    simp [handle_api, jget, jfield, hok, habsent, hdel, mOfExcept, mFail,
      instMonadM, M.pure, Eff.nil, Eff.app]
  · intro fields t msg meff hok htp ht hmv
    simp [handle_api, jget, jfield, hok, htp, ht, hmv, asPyStr, jsonTruthy,
      mOfExcept, mFail, instMonadM, M.pure, Eff.nil, Eff.app]
  · intro fields t msg meff hok htp ht hmv
    simp [handle_api, jget, jfield, hok, htp, ht, hmv, asPyStr, jsonTruthy,
      mOfExcept, mFail, instMonadM, M.pure, Eff.nil, Eff.app]
  · intro fields t dmsg deff hok htp ht hdel
    simp [handle_api, jget, jfield, hok, htp, ht, hdel, asPyStr, jsonTruthy,
      mOfExcept, mFail, instMonadM, M.pure, Eff.nil, Eff.app]
  · intro fields hok htp
    constructor <;>
      simp [handle_api, jget, jfield, hok, htp, jsonTruthy, mOfExcept, mFail,
        instMonadM, M.pure, Eff.nil, Eff.app]

/-- C4 witness: a wrong key is rejected with 403, and a valid `/move` request
with nothing playing replies `(Nothing is playing, 200)`. -/
theorem c4_witness :
    handle_api "move" (some (Json.obj [("api_key", Json.str "wrong")]))
        ⟨[okFrame nothingPlayingBody], [], [], [], []⟩
      = (Except.ok ("Invalid api_key", 403), Eff.nil) ∧
    handle_api "move"
        (some (Json.obj [("api_key", Json.str apiKeySecret),
          ("target_playlist", Json.str "Mix")]))
        ⟨[okFrame nothingPlayingBody], [], [], [], []⟩
      = (Except.ok ("Nothing is playing", 200),
          ⟨[url_current_track], [], []⟩) := by
  constructor
  · exact (c4_handle_api_behavior
      ⟨[okFrame nothingPlayingBody], [], [], [], []⟩).2.1 "move"
      [("api_key", Json.str "wrong")] (by decide)
  · exact (c4_handle_api_behavior
      ⟨[okFrame nothingPlayingBody], [], [], [], []⟩).2.2.2.2.1
      [("api_key", Json.str apiKeySecret), ("target_playlist", Json.str "Mix")]
      "Mix" "Nothing is playing" ⟨[url_current_track], [], []⟩
      (by decide) rfl (by decide) rfl

@[simp] theorem skipWs_cons_not_ws (c : Char) (cs : List Char)
    (h : isWsChar c = false) : skipWs (c :: cs) = c :: cs := by
  simp [skipWs, h]

@[simp] theorem skipWs_cons_ws (c : Char) (cs : List Char)
    (h : isWsChar c = true) : skipWs (c :: cs) = skipWs cs := by
  simp [skipWs, h]

/-- Scanning a string body after the opening quote undoes the escaping that
`dumps` applied, for every payload. -/
theorem parseStrBody_escapeStr (s : List Char) :
    ∀ rest : List Char,
    parseStrBody (escapeStr s ++ quoteChar :: rest) = some (s, rest) := by
  have hbq : (('\\' : Char) == quoteChar) = false := rfl
  have hbb : (('\\' : Char) == '\\') = true := rfl
  have hqq : (quoteChar == quoteChar) = true := rfl
  induction s with
  | nil =>
    intro rest
    rw [show escapeStr [] ++ quoteChar :: rest = quoteChar :: rest by
      simp [escapeStr]]
    rw [parseStrBody.eq_def]
    simp [hqq]
  | cons c cs ih =>
    intro rest
    by_cases hq : (c == quoteChar || c == '\\') = true
    · rw [show escapeStr (c :: cs) ++ quoteChar :: rest
          = '\\' :: c :: (escapeStr cs ++ quoteChar :: rest) by
        simp [escapeStr, escapeChar, hq]]
      rw [parseStrBody.eq_def]
      simp [hbq, hbb, hq, ih rest]
    · have h1 : (c == quoteChar) = false := by
        cases h : (c == quoteChar) <;> simp_all
      have h2 : (c == '\\') = false := by
        cases h : (c == '\\') <;> simp_all
      rw [show escapeStr (c :: cs) ++ quoteChar :: rest
          = c :: (escapeStr cs ++ quoteChar :: rest) by
        simp [escapeStr, escapeChar, h1, h2]]
      rw [parseStrBody.eq_def]
      simp [h1, h2, ih rest]

/-- Every decimal digit produced by `natDigitsRev` is below ten. -/
theorem natDigitsRev_lt10 (n : Nat) : ∀ d ∈ natDigitsRev n, d < 10 := by
  induction n using Nat.strong_induction_on with
  | _ n ih =>
    by_cases h : n < 10
    · rw [natDigitsRev]
      simp [h]
    · rw [natDigitsRev]
      simp only [h, if_false]
      intro d hd
      rcases List.mem_cons.mp hd with rfl | hmem
      · omega
      · exact ih (n / 10) (Nat.div_lt_self (by omega) (by omega)) d hmem

theorem natDigitsRev_ne_nil (n : Nat) : natDigitsRev n ≠ [] := by
  rw [natDigitsRev]
  by_cases h : n < 10 <;> simp [h]

theorem digitsValAux_append (a b : List Char) :
    ∀ acc, digitsValAux acc (a ++ b) = digitsValAux (digitsValAux acc a) b := by
  induction a with
  | nil => intro acc; rfl
  | cons c cs ih => intro acc; exact ih (10 * acc + (c.toNat - 48))

set_option maxHeartbeats 1000000 in
theorem digitChar_toNat (d : Nat) (h : d < 10) : (digitChar d).toNat = 48 + d := by
  interval_cases d <;> rfl

set_option maxHeartbeats 1000000 in
theorem isDigitChar_digitChar (d : Nat) (h : d < 10) :
    isDigitChar (digitChar d) = true := by
  interval_cases d <;> rfl

/-- Folding the rendered digits of `n` back into a number. -/
theorem digitsValAux_natChars (n : Nat) :
    ∀ acc, digitsValAux acc (natChars n)
      = acc * 10 ^ (natDigitsRev n).length + n := by
  induction n using Nat.strong_induction_on with
  | _ n ih =>
    intro acc
    by_cases h : n < 10
    · rw [natChars, natDigitsRev, if_pos h]
      rw [show ([n].map digitChar).reverse = [digitChar n] from by simp]
      rw [show digitsValAux acc [digitChar n]
            = 10 * acc + ((digitChar n).toNat - 48) from rfl]
      rw [digitChar_toNat n h]
      simp
      omega
    · have hdiv : n / 10 < n := Nat.div_lt_self (by omega) (by omega)
      rw [natChars, natDigitsRev, if_neg h]
      rw [show (((n % 10 :: natDigitsRev (n / 10)).map digitChar)).reverse
            = natChars (n / 10) ++ [digitChar (n % 10)] from by
          simp [natChars]]
      rw [digitsValAux_append, ih (n / 10) hdiv acc]
      rw [show digitsValAux (acc * 10 ^ (natDigitsRev (n / 10)).length + n / 10)
            [digitChar (n % 10)]
          = 10 * (acc * 10 ^ (natDigitsRev (n / 10)).length + n / 10)
              + ((digitChar (n % 10)).toNat - 48) from rfl]
      rw [digitChar_toNat (n % 10) (by omega)]
      rw [show (n % 10 :: natDigitsRev (n / 10)).length
            = (natDigitsRev (n / 10)).length + 1 from by simp]
      have hp : (10 : Nat) ^ ((natDigitsRev (n / 10)).length + 1)
          = 10 ^ (natDigitsRev (n / 10)).length * 10 := pow_succ 10 _
      rw [hp]
      have hv : 48 + n % 10 - 48 = n % 10 := by omega
      rw [hv]
      calc 10 * (acc * 10 ^ (natDigitsRev (n / 10)).length + n / 10) + n % 10
          = acc * (10 ^ (natDigitsRev (n / 10)).length * 10)
              + (10 * (n / 10) + n % 10) := by ring
        _ = acc * (10 ^ (natDigitsRev (n / 10)).length * 10) + n := by
              rw [Nat.div_add_mod]

theorem digitsVal_natChars (n : Nat) : digitsValAux 0 (natChars n) = n := by
  simpa using digitsValAux_natChars n 0

theorem natChars_ne_nil (n : Nat) : natChars n ≠ [] := by
  simp [natChars, natDigitsRev_ne_nil n]

theorem natChars_digits (n : Nat) : ∀ c ∈ natChars n, isDigitChar c = true := by
  intro c hc
  simp only [natChars, List.mem_reverse, List.mem_map] at hc
  obtain ⟨d, hd, rfl⟩ := hc
  exact isDigitChar_digitChar d (natDigitsRev_lt10 n d hd)

theorem spanDigits_append (ds : List Char) :
    ∀ rest, (∀ c ∈ ds, isDigitChar c = true) → headNotDigit rest = true →
    spanDigits (ds ++ rest) = (ds, rest) := by
  induction ds with
  | nil =>
    intro rest _ hrest
    cases rest with
    | nil => rfl
    | cons c cs =>
      have : isDigitChar c = false := by
        simpa [headNotDigit] using hrest
      simp [spanDigits, this]
  | cons c cs ih =>
    intro rest hds hrest
    have hc : isDigitChar c = true := hds c (by simp)
    simp [spanDigits, hc, ih rest (fun x hx => hds x (by simp [hx])) hrest]

/-- The two dispatch equations of `parseNum`. -/
theorem parseNum_dash (cs : List Char) :
    parseNum ('-' :: cs) = (match spanDigits cs with
      | ([], _) => none
      | (ds, r) => some (Json.num (-(digitsValAux 0 ds : Int)), r)) := rfl

theorem parseNum_notdash (c : Char) (cs : List Char) (h : ¬(c = '-')) :
    parseNum (c :: cs) = (match spanDigits (c :: cs) with
      | ([], _) => none
      | (ds, r) => some (Json.num (digitsValAux 0 ds), r)) := by
  rw [parseNum.eq_def]
  simp [h]

/-- Parsing the decimal rendering of a Python int, with any non-digit
continuation. -/
theorem parseNum_intChars (n : Int) (rest : List Char)
    (hrest : headNotDigit rest = true) :
    parseNum (intChars n ++ rest) = some (Json.num n, rest) := by
  obtain ⟨c, cs', hnc⟩ : ∃ c cs', natChars n.natAbs = c :: cs' := by
    match hx : natChars n.natAbs with
    | [] => exact absurd hx (natChars_ne_nil _)
    | c :: cs' => exact ⟨c, cs', rfl⟩
  by_cases hn : n < 0
  · rw [intChars, if_pos hn]
    rw [show ('-' :: natChars n.natAbs) ++ rest
          = '-' :: (natChars n.natAbs ++ rest) from rfl]
    rw [parseNum_dash]
    rw [spanDigits_append (natChars n.natAbs) rest (natChars_digits _) hrest]
    rw [hnc]
    show some (Json.num (-(digitsValAux 0 (c :: cs') : Int)), rest)
      = some (Json.num n, rest)
    rw [← hnc, digitsVal_natChars]
    have hv : (-(n.natAbs : Int)) = n := by omega
    rw [hv]
  · rw [intChars, if_neg hn]
    have hcd : isDigitChar c = true := natChars_digits _ c (by rw [hnc]; simp)
    have hcm : ¬(c = '-') := by
      intro he
      subst he
      have h45 : ('-' : Char).toNat = 45 := rfl
      simp [isDigitChar, h45] at hcd
    rw [hnc]
    rw [show (c :: cs') ++ rest = c :: (cs' ++ rest) from rfl]
    rw [parseNum_notdash c (cs' ++ rest) hcm]
    rw [show c :: (cs' ++ rest) = (c :: cs') ++ rest from rfl, ← hnc]
    rw [spanDigits_append _ rest (natChars_digits _) hrest]
    rw [hnc]
    show some (Json.num ((digitsValAux 0 (c :: cs') : Nat) : Int), rest)
      = some (Json.num n, rest)
    rw [← hnc, digitsVal_natChars]
    have hv : ((n.natAbs : Int)) = n := by omega
    rw [hv]

/-- A decimal digit character is neither JSON whitespace nor a closing
bracket. -/
theorem digit_not_ws_not_rbracket (c : Char) (h : isDigitChar c = true) :
    isWsChar c = false ∧ ¬(c = ']') := by
  simp only [isDigitChar, Bool.and_eq_true, decide_eq_true_eq] at h
  constructor
  · simp only [isWsChar, Bool.or_eq_false_iff, beq_eq_false_iff_ne, ne_eq]
    refine ⟨⟨⟨?_, ?_⟩, ?_⟩, ?_⟩ <;>
      · intro he
        subst he
        exact absurd h (by decide)
  · intro he
    subst he
    exact absurd h (by decide)

/-- Every rendered value starts with a printable, non-bracket, non-space
character. -/
theorem dumpsVal_head (j : Json) :
    ∃ c cs', dumpsVal j = c :: cs' ∧ isWsChar c = false ∧ ¬(c = ']') := by
  cases j with
  | null =>
    refine ⟨'n', ['u', 'l', 'l'], ?_, rfl, by decide⟩
    simp [dumpsVal]
  | bool b =>
    cases b with
    | true =>
      refine ⟨'t', ['r', 'u', 'e'], ?_, rfl, by decide⟩
      simp [dumpsVal]
    | false =>
      refine ⟨'f', ['a', 'l', 's', 'e'], ?_, rfl, by decide⟩
      simp [dumpsVal]
  | num n =>
    obtain ⟨c, cs', hnc⟩ : ∃ c cs', natChars n.natAbs = c :: cs' := by
      match hx : natChars n.natAbs with
      | [] => exact absurd hx (natChars_ne_nil _)
      | c :: cs' => exact ⟨c, cs', rfl⟩
    by_cases hn : n < 0
    · refine ⟨'-', natChars n.natAbs, ?_, rfl, by decide⟩
      simp [dumpsVal, intChars, hn]
    · have hcd : isDigitChar c = true := natChars_digits _ c (by rw [hnc]; simp)
      obtain ⟨hw, hb⟩ := digit_not_ws_not_rbracket c hcd
      refine ⟨c, cs', ?_, hw, hb⟩
      rw [show dumpsVal (Json.num n) = intChars n from by simp [dumpsVal]]
      rw [intChars, if_neg hn, hnc]
  | str s =>
    refine ⟨quoteChar, escapeStr s.data ++ [quoteChar], ?_, rfl, by decide⟩
    simp [dumpsVal]
  | arr xs =>
    refine ⟨'[', dumpsArrBody xs, ?_, rfl, by decide⟩
    simp [dumpsVal]
  | obj kvs =>
    refine ⟨lbrace, dumpsObjBody kvs, ?_, rfl, by decide⟩
    simp [dumpsVal]

theorem jNeed_pos (j : Json) : 1 ≤ jNeed j := by
  cases j with
  | arr xs => cases xs <;> simp [jNeed]
  | obj kvs =>
    match kvs with
    | [] => simp [jNeed]
    | (k, v) :: t => simp [jNeed]
  | null => simp [jNeed]
  | bool b => simp [jNeed]
  | num n => simp [jNeed]
  | str s => simp [jNeed]

theorem jNeedA_pos (xs : List Json) : 1 ≤ jNeedA xs := by
  cases xs <;> simp [jNeedA]

theorem jNeedF_pos (kvs : List (String × Json)) : 1 ≤ jNeedF kvs := by
  match kvs with
  | [] => simp [jNeedF]
  | (k, v) :: t => simp [jNeedF]

mutual

/-- The recursion budget of a rendered value is bounded by its length. -/
theorem jNeed_le (j : Json) : jNeed j ≤ (dumpsVal j).length + 1 := by
  cases j with
  | null => simp [jNeed]
  | bool b => simp [jNeed]
  | num n => simp [jNeed]
  | str s => simp [jNeed]
  | arr xs =>
    match xs with
    | [] => simp [jNeed]
    | x :: t =>
      have h1 := jNeed_le x
      have h2 := jNeedA_le t
      have h3 : max (jNeed x) (jNeedA t)
          ≤ (dumpsVal x).length + (dumpsArrTail t).length + 1 :=
        Nat.max_le.mpr ⟨by omega, by omega⟩
      rw [show dumpsVal (Json.arr (x :: t))
            = '[' :: (dumpsVal x ++ dumpsArrTail t) from by
          simp [dumpsVal, dumpsArrBody]]
      rw [show jNeed (Json.arr (x :: t))
            = 1 + max (jNeed x) (jNeedA t) from by simp [jNeed]]
      simp only [List.length_cons, List.length_append]
      omega
  | obj kvs =>
    match kvs with
    | [] => simp [jNeed]
    | (k, v) :: t =>
      have h1 := jNeed_le v
      have h2 := jNeedF_le t
      have h3 : max (jNeed v) (jNeedF t)
          ≤ (dumpsVal v).length + (dumpsObjTail t).length + 1 :=
        Nat.max_le.mpr ⟨by omega, by omega⟩
      rw [show dumpsVal (Json.obj ((k, v) :: t))
            = lbrace :: (quoteChar ::
                (escapeStr k.data ++ quoteChar :: ':' :: ' ' ::
                  (dumpsVal v ++ dumpsObjTail t))) from by
          simp [dumpsVal, dumpsObjBody]]
      rw [show jNeed (Json.obj ((k, v) :: t))
            = 1 + max (jNeed v) (jNeedF t) from by simp [jNeed]]
      simp only [List.length_cons, List.length_append]
      omega

theorem jNeedA_le (xs : List Json) : jNeedA xs ≤ (dumpsArrTail xs).length + 1 := by
  match xs with
  | [] => simp [jNeedA]
  | x :: t =>
    have h1 := jNeed_le x
    have h2 := jNeedA_le t
    have h3 : max (jNeed x) (jNeedA t)
        ≤ (dumpsVal x).length + (dumpsArrTail t).length + 1 :=
      Nat.max_le.mpr ⟨by omega, by omega⟩
    rw [show dumpsArrTail (x :: t)
          = ',' :: ' ' :: (dumpsVal x ++ dumpsArrTail t) from by
        simp [dumpsArrTail]]
    rw [show jNeedA (x :: t) = 1 + max (jNeed x) (jNeedA t) from by
      simp [jNeedA]]
    simp only [List.length_cons, List.length_append]
    omega

theorem jNeedF_le (kvs : List (String × Json)) :
    jNeedF kvs ≤ (dumpsObjTail kvs).length + 1 := by
  match kvs with
  | [] => simp [jNeedF]
  | (k, v) :: t =>
    have h1 := jNeed_le v
    have h2 := jNeedF_le t
    have h3 : max (jNeed v) (jNeedF t)
        ≤ (dumpsVal v).length + (dumpsObjTail t).length + 1 :=
      Nat.max_le.mpr ⟨by omega, by omega⟩
    rw [show dumpsObjTail ((k, v) :: t)
          = ',' :: ' ' :: quoteChar ::
              (escapeStr k.data ++ quoteChar :: ':' :: ' ' ::
                (dumpsVal v ++ dumpsObjTail t)) from by
        simp [dumpsObjTail]]
    rw [show jNeedF ((k, v) :: t) = 1 + max (jNeed v) (jNeedF t) from by
      simp [jNeedF]]
    simp only [List.length_cons, List.length_append]
    omega

end

/-- Step equations of the parser at each concrete head character. -/
theorem parseVal_ws_step (f : Nat) (c : Char) (cs : List Char)
    (h : isWsChar c = true) :
    parseVal (Nat.succ f) (c :: cs) = parseVal (Nat.succ f) cs := by
  simp only [parseVal]
  rw [show skipWs (c :: cs) = skipWs cs from by simp [h]]

theorem parseVal_null_step (f : Nat) (rest : List Char) :
    parseVal (Nat.succ f) ('n' :: 'u' :: 'l' :: 'l' :: rest)
      = some (Json.null, rest) := by
  simp only [parseVal]
  rfl

theorem parseVal_true_step (f : Nat) (rest : List Char) :
    parseVal (Nat.succ f) ('t' :: 'r' :: 'u' :: 'e' :: rest)
      = some (Json.bool true, rest) := by
  simp only [parseVal]
  rfl

theorem parseVal_false_step (f : Nat) (rest : List Char) :
    parseVal (Nat.succ f) ('f' :: 'a' :: 'l' :: 's' :: 'e' :: rest)
      = some (Json.bool false, rest) := by
  simp only [parseVal]
  rfl

theorem parseVal_str_step (f : Nat) (cs : List Char) :
    parseVal (Nat.succ f) (quoteChar :: cs)
      = (match parseStrBody cs with
         | none => none
         | some (s, r2) => some (Json.str (String.mk s), r2)) := by
  simp only [parseVal]
  rfl

theorem parseVal_num_step (f : Nat) (c : Char) (cs : List Char)
    (hw : isWsChar c = false) (hd : (isDigitChar c || c == '-') = true) :
    parseVal (Nat.succ f) (c :: cs) = parseNum (c :: cs) := by
  simp only [parseVal]
  rw [show skipWs (c :: cs) = c :: cs from by simp [hw]]
  simp [hd]

theorem parseVal_arr_nil_step (f : Nat) (rest : List Char) :
    parseVal (Nat.succ f) ('[' :: ']' :: rest) = some (Json.arr [], rest) := by
  simp only [parseVal]
  rfl

theorem parseVal_arr_cons_step (f : Nat) (c : Char) (cs : List Char)
    (hw : isWsChar c = false) (hb : ¬(c = ']')) :
    parseVal (Nat.succ f) ('[' :: c :: cs)
      = (match parseVal f (c :: cs) with
         | none => none
         | some (v, r2) =>
           match parseItems f r2 with
           | none => none
           | some (vs, r3) => some (Json.arr (v :: vs), r3)) := by
  have h1 : isWsChar '[' = false := rfl
  have h2 : isDigitChar '[' = false := rfl
  have h3 : ¬('[' : Char) = '-' := by decide
  have h4 : ¬('[' : Char) = 'n' := by decide
  have h5 : ¬('[' : Char) = 't' := by decide
  have h6 : ¬('[' : Char) = 'f' := by decide
  have h7 : ¬('[' : Char) = quoteChar := by decide
  have h8 : ¬('[' : Char) = lbrace := by decide
  simp only [parseVal]
  simp [hw, hb, h1, h2, h3, h4, h5, h6, h7, h8]

theorem parseVal_obj_nil_step (f : Nat) (rest : List Char) :
    parseVal (Nat.succ f) (lbrace :: rbrace :: rest) = some (Json.obj [], rest) := by
  simp only [parseVal]
  rfl

theorem parseVal_obj_cons_step (f : Nat) (cs : List Char) :
    parseVal (Nat.succ f) (lbrace :: quoteChar :: cs)
      = (match parseStrBody cs with
         | none => none
         | some (k, r3) =>
           match skipWs r3 with
           | ':' :: r4 =>
             (match parseVal f r4 with
              | none => none
              | some (v, r5) =>
                match parseFields f r5 with
                | none => none
                | some (kvs, r6) => some (Json.obj ((String.mk k, v) :: kvs), r6))
           | _ => none) := by
  simp only [parseVal]
  rfl

theorem parseItems_rb_step (f : Nat) (rest : List Char) :
    parseItems (Nat.succ f) (']' :: rest) = some ([], rest) := by
  simp only [parseItems]
  rfl

theorem parseItems_comma_step (f : Nat) (cs : List Char) :
    parseItems (Nat.succ f) (',' :: cs)
      = (match parseVal f cs with
         | none => none
         | some (v, r2) =>
           match parseItems f r2 with
           | none => none
           | some (vs, r3) => some (v :: vs, r3)) := by
  simp only [parseItems]
  rfl

theorem parseFields_rb_step (f : Nat) (rest : List Char) :
    parseFields (Nat.succ f) (rbrace :: rest) = some ([], rest) := by
  simp only [parseFields]
  rfl

theorem parseFields_comma_step (f : Nat) (cs : List Char) :
    parseFields (Nat.succ f) (',' :: ' ' :: quoteChar :: cs)
      = (match parseStrBody cs with
         | none => none
         | some (k, r3) =>
           match skipWs r3 with
           | ':' :: r4 =>
             (match parseVal f r4 with
              | none => none
              | some (v, r5) =>
                match parseFields f r5 with
                | none => none
                | some (kvs, r6) => some ((String.mk k, v) :: kvs, r6))
           | _ => none) := by
  simp only [parseFields]
  rfl

theorem headNotDigit_dumpsArrTail (t : List Json) (rest : List Char) :
    headNotDigit (dumpsArrTail t ++ rest) = true := by
  cases t with
  | nil =>
    rw [show dumpsArrTail ([] : List Json) = [']'] from by simp [dumpsArrTail]]
    rfl
  | cons x t2 =>
    rw [show dumpsArrTail (x :: t2)
          = ',' :: ' ' :: (dumpsVal x ++ dumpsArrTail t2) from by
        simp [dumpsArrTail]]
    rfl

theorem headNotDigit_dumpsObjTail (t : List (String × Json)) (rest : List Char) :
    headNotDigit (dumpsObjTail t ++ rest) = true := by
  cases t with
  | nil =>
    rw [show dumpsObjTail ([] : List (String × Json)) = [rbrace] from by
      simp [dumpsObjTail]]
    rfl
  | cons kv t2 =>
    obtain ⟨k2, v2⟩ := kv
    rw [show dumpsObjTail ((k2, v2) :: t2)
          = ',' :: ' ' :: quoteChar ::
              (escapeStr k2.data ++ quoteChar :: ':' :: ' ' ::
                (dumpsVal v2 ++ dumpsObjTail t2)) from by
        simp [dumpsObjTail]]
    rfl

@[simp] theorem isWsChar_space : isWsChar ' ' = true := rfl

@[simp] theorem isWsChar_colon : isWsChar ':' = false := rfl

@[simp] theorem mk_data (s : String) : String.mk s.data = s := rfl

mutual

/-- The parser undoes the renderer on every value, with any recursion budget
at least the value's need and any non-digit continuation. -/
theorem parseVal_dumpsVal (j : Json) : ∀ (fuel : Nat) (rest : List Char),
    jNeed j ≤ fuel → headNotDigit rest = true →
    parseVal fuel (dumpsVal j ++ rest) = some (j, rest) := by
  cases j with
  | null =>
    intro fuel rest hf hr
    cases fuel with
    | zero => have := jNeed_pos Json.null; omega
    | succ f =>
      rw [show dumpsVal Json.null ++ rest = 'n' :: 'u' :: 'l' :: 'l' :: rest
        from by simp [dumpsVal]]
      exact parseVal_null_step f rest
  | bool b =>
    intro fuel rest hf hr
    cases fuel with
    | zero => have := jNeed_pos (Json.bool b); omega
    | succ f =>
      cases b with
      | true =>
        rw [show dumpsVal (Json.bool true) ++ rest
              = 't' :: 'r' :: 'u' :: 'e' :: rest from by simp [dumpsVal]]
        exact parseVal_true_step f rest
      | false =>
        rw [show dumpsVal (Json.bool false) ++ rest
              = 'f' :: 'a' :: 'l' :: 's' :: 'e' :: rest from by simp [dumpsVal]]
        exact parseVal_false_step f rest
  | num n =>
    intro fuel rest hf hr
    cases fuel with
    | zero => have := jNeed_pos (Json.num n); omega
    | succ f =>
      rw [show dumpsVal (Json.num n) ++ rest = intChars n ++ rest from by
        simp [dumpsVal]]
      by_cases hn : n < 0
      · rw [show intChars n ++ rest = '-' :: (natChars n.natAbs ++ rest) from by
          rw [intChars, if_pos hn]; rfl]
        rw [parseVal_num_step f '-' _ rfl (by decide)]
        rw [show '-' :: (natChars n.natAbs ++ rest) = intChars n ++ rest from by
          rw [intChars, if_pos hn]; rfl]
        exact parseNum_intChars n rest hr
      · obtain ⟨c, cs', hnc⟩ : ∃ c cs', natChars n.natAbs = c :: cs' := by
          match hx : natChars n.natAbs with
          | [] => exact absurd hx (natChars_ne_nil _)
          | c :: cs' => exact ⟨c, cs', rfl⟩
        have hcd : isDigitChar c = true :=
          natChars_digits _ c (by rw [hnc]; simp)
        have hw : isWsChar c = false := (digit_not_ws_not_rbracket c hcd).1
        rw [show intChars n ++ rest = c :: (cs' ++ rest) from by
          rw [intChars, if_neg hn, hnc]; rfl]
        rw [parseVal_num_step f c _ hw (by simp [hcd])]
        rw [show c :: (cs' ++ rest) = intChars n ++ rest from by
          rw [intChars, if_neg hn, hnc]; rfl]
        exact parseNum_intChars n rest hr
  | str s =>
    intro fuel rest hf hr
    cases fuel with
    | zero => have := jNeed_pos (Json.str s); omega
    | succ f =>
      rw [show dumpsVal (Json.str s) ++ rest
            = quoteChar :: (escapeStr s.data ++ quoteChar :: rest) from by
        simp [dumpsVal]]
      rw [parseVal_str_step f _]
      rw [parseStrBody_escapeStr s.data rest]
  | arr xs =>
    match xs with
    | [] =>
      intro fuel rest hf hr
      cases fuel with
      | zero => have := jNeed_pos (Json.arr []); omega
      | succ f =>
        rw [show dumpsVal (Json.arr []) ++ rest = '[' :: ']' :: rest from by
          simp [dumpsVal, dumpsArrBody]]
        exact parseVal_arr_nil_step f rest
    | x :: t =>
      intro fuel rest hf hr
      cases fuel with
      | zero => have := jNeed_pos (Json.arr (x :: t)); omega
      | succ f =>
        have hfx : jNeed x ≤ f := by
          rw [show jNeed (Json.arr (x :: t)) = 1 + max (jNeed x) (jNeedA t)
            from by simp [jNeed]] at hf
          have := le_max_left (jNeed x) (jNeedA t)
          omega
        have hft : jNeedA t ≤ f := by
          rw [show jNeed (Json.arr (x :: t)) = 1 + max (jNeed x) (jNeedA t)
            from by simp [jNeed]] at hf
          have := le_max_right (jNeed x) (jNeedA t)
          omega
        obtain ⟨c, cs', hh, hw, hb⟩ := dumpsVal_head x
        rw [show dumpsVal (Json.arr (x :: t)) ++ rest
              = '[' :: (dumpsVal x ++ (dumpsArrTail t ++ rest)) from by
            simp [dumpsVal, dumpsArrBody]]
        rw [hh]
        rw [show '[' :: ((c :: cs') ++ (dumpsArrTail t ++ rest))
              = '[' :: c :: (cs' ++ (dumpsArrTail t ++ rest)) from rfl]
        rw [parseVal_arr_cons_step f c _ hw hb]
        rw [show c :: (cs' ++ (dumpsArrTail t ++ rest))
              = (c :: cs') ++ (dumpsArrTail t ++ rest) from rfl]
        rw [← hh]
        rw [parseVal_dumpsVal x f (dumpsArrTail t ++ rest) hfx
          (headNotDigit_dumpsArrTail t rest)]
        simp [parseItems_dumpsArrTail t f rest hft hr]
  | obj kvs =>
    match kvs with
    | [] =>
      intro fuel rest hf hr
      cases fuel with
      | zero => have := jNeed_pos (Json.obj []); omega
      | succ f =>
        rw [show dumpsVal (Json.obj []) ++ rest = lbrace :: rbrace :: rest
          from by simp [dumpsVal, dumpsObjBody]]
        exact parseVal_obj_nil_step f rest
    | (k, v) :: t =>
      intro fuel rest hf hr
      cases fuel with
      | zero => have := jNeed_pos (Json.obj ((k, v) :: t)); omega
      | succ f =>
        have hfv : jNeed v ≤ f := by
          rw [show jNeed (Json.obj ((k, v) :: t)) = 1 + max (jNeed v) (jNeedF t)
            from by simp [jNeed]] at hf
          have := le_max_left (jNeed v) (jNeedF t)
          omega
        have hft : jNeedF t ≤ f := by
          rw [show jNeed (Json.obj ((k, v) :: t)) = 1 + max (jNeed v) (jNeedF t)
            from by simp [jNeed]] at hf
          have := le_max_right (jNeed v) (jNeedF t)
          omega
        rw [show dumpsVal (Json.obj ((k, v) :: t)) ++ rest
              = lbrace :: quoteChar ::
                  (escapeStr k.data ++ quoteChar ::
                    (':' :: (' ' :: (dumpsVal v ++ (dumpsObjTail t ++ rest)))))
            from by simp [dumpsVal, dumpsObjBody]]
        rw [parseVal_obj_cons_step f _]
        have hfv1 : 1 ≤ f := le_trans (jNeed_pos v) hfv
        cases f with
        | zero => omega
        | succ f2 =>
          rw [parseStrBody_escapeStr k.data
            (':' :: (' ' :: (dumpsVal v ++ (dumpsObjTail t ++ rest))))]
          simp only [skipWs_cons_not_ws _ _ isWsChar_colon]
          rw [parseVal_ws_step f2 ' ' _ isWsChar_space]
          rw [parseVal_dumpsVal v (Nat.succ f2) (dumpsObjTail t ++ rest) hfv
            (headNotDigit_dumpsObjTail t rest)]
          simp [parseFields_dumpsObjTail t (Nat.succ f2) rest hft hr]

/-- The parser undoes the renderer on every rendered array tail. -/
theorem parseItems_dumpsArrTail (xs : List Json) :
    ∀ (fuel : Nat) (rest : List Char),
    jNeedA xs ≤ fuel → headNotDigit rest = true →
    parseItems fuel (dumpsArrTail xs ++ rest) = some (xs, rest) := by
  cases xs with
  | nil =>
    intro fuel rest hf hr
    cases fuel with
    | zero => have := jNeedA_pos []; omega
    | succ f =>
      rw [show dumpsArrTail ([] : List Json) ++ rest = ']' :: rest from by
        simp [dumpsArrTail]]
      exact parseItems_rb_step f rest
  | cons x t =>
    intro fuel rest hf hr
    cases fuel with
    | zero => have := jNeedA_pos (x :: t); omega
    | succ f =>
      have hfx : jNeed x ≤ f := by
        rw [show jNeedA (x :: t) = 1 + max (jNeed x) (jNeedA t) from by
          simp [jNeedA]] at hf
        have := le_max_left (jNeed x) (jNeedA t)
        omega
      have hft : jNeedA t ≤ f := by
        rw [show jNeedA (x :: t) = 1 + max (jNeed x) (jNeedA t) from by
          simp [jNeedA]] at hf
        have := le_max_right (jNeed x) (jNeedA t)
        omega
      have hfx1 : 1 ≤ f := le_trans (jNeed_pos x) hfx
      cases f with
      | zero => omega
      | succ f2 =>
        rw [show dumpsArrTail (x :: t) ++ rest
              = ',' :: (' ' :: (dumpsVal x ++ (dumpsArrTail t ++ rest)))
            from by simp [dumpsArrTail]]
        rw [parseItems_comma_step (Nat.succ f2) _]
        rw [parseVal_ws_step f2 ' ' _ isWsChar_space]
        rw [parseVal_dumpsVal x (Nat.succ f2) (dumpsArrTail t ++ rest) hfx
          (headNotDigit_dumpsArrTail t rest)]
        simp [parseItems_dumpsArrTail t (Nat.succ f2) rest hft hr]

/-- The parser undoes the renderer on every rendered object tail. -/
theorem parseFields_dumpsObjTail (kvs : List (String × Json)) :
    ∀ (fuel : Nat) (rest : List Char),
    jNeedF kvs ≤ fuel → headNotDigit rest = true →
    parseFields fuel (dumpsObjTail kvs ++ rest) = some (kvs, rest) := by
  cases kvs with
  | nil =>
    intro fuel rest hf hr
    cases fuel with
    | zero => have := jNeedF_pos []; omega
    | succ f =>
      rw [show dumpsObjTail ([] : List (String × Json)) ++ rest = rbrace :: rest
        from by simp [dumpsObjTail]]
      exact parseFields_rb_step f rest
  | cons kv t =>
    obtain ⟨k, v⟩ := kv
    intro fuel rest hf hr
    cases fuel with
    | zero => have := jNeedF_pos ((k, v) :: t); omega
    | succ f =>
      have hfv : jNeed v ≤ f := by
        rw [show jNeedF ((k, v) :: t) = 1 + max (jNeed v) (jNeedF t) from by
          simp [jNeedF]] at hf
        have := le_max_left (jNeed v) (jNeedF t)
        omega
      have hft : jNeedF t ≤ f := by
        rw [show jNeedF ((k, v) :: t) = 1 + max (jNeed v) (jNeedF t) from by
          simp [jNeedF]] at hf
        have := le_max_right (jNeed v) (jNeedF t)
        omega
      have hfv1 : 1 ≤ f := le_trans (jNeed_pos v) hfv
      cases f with
      | zero => omega
      | succ f2 =>
        rw [show dumpsObjTail ((k, v) :: t) ++ rest
              = ',' :: ' ' :: quoteChar ::
                  (escapeStr k.data ++ quoteChar ::
                    (':' :: (' ' :: (dumpsVal v ++ (dumpsObjTail t ++ rest)))))
            from by simp [dumpsObjTail]]
        rw [parseFields_comma_step (Nat.succ f2) _]
        rw [parseStrBody_escapeStr k.data
          (':' :: (' ' :: (dumpsVal v ++ (dumpsObjTail t ++ rest))))]
        simp only [skipWs_cons_not_ws _ _ isWsChar_colon]
        rw [parseVal_ws_step f2 ' ' _ isWsChar_space]
        rw [parseVal_dumpsVal v (Nat.succ f2) (dumpsObjTail t ++ rest) hfv
          (headNotDigit_dumpsObjTail t rest)]
        simp [parseFields_dumpsObjTail t (Nat.succ f2) rest hft hr]

end

/-- `json.loads` undoes `json.dumps` on every value of the model. -/
theorem loads_dumpsVal (j : Json) : loads (dumpsVal j) = some j := by
  have hb := jNeed_le j
  have h := parseVal_dumpsVal j ((dumpsVal j).length + 1) [] (by omega) rfl
  rw [show dumpsVal j ++ [] = dumpsVal j from by simp] at h
  rw [loads, h]
  rfl

/-- UTF-8 encoding of text decodes back to the same text. -/
theorem utf8_roundtrip (cs : List Char) : utf8Decode (utf8Encode cs) = cs := by
  induction cs with
  | nil => rfl
  | cons c t ih => simp [utf8Encode, utf8Decode, Char.ofNat_toNat] at ih ⊢; exact ih

/-- The modelled gzip codec is lossless. -/
theorem gzip_roundtrip (bs : List Nat) :
    gzipDecompress (gzipCompress bs) = some bs := rfl

/-- C8: a snapshot document (a mapping from endpoint names to results, within
the model's well-formed fragment: integer numbers, printable-ASCII strings,
no duplicate keys), JSON-encoded with `json.dumps`, UTF-8-encoded and
gzip-compressed, then gzip-decompressed, UTF-8-decoded and parsed with
`json.loads`, yields the original mapping. -/
theorem c8_snapshot_roundtrip (doc : List (String × Json))
    (hwf : jWF (Json.obj doc) = true) :
    (gzipDecompress (gzipCompress (utf8Encode (dumpsVal (Json.obj doc))))).bind
        (fun bs => loads (utf8Decode bs)) = some (Json.obj doc) := by
  rw [gzip_roundtrip]
  rw [show (some (utf8Encode (dumpsVal (Json.obj doc)))).bind
        (fun bs => loads (utf8Decode bs))
      = loads (utf8Decode (utf8Encode (dumpsVal (Json.obj doc)))) from rfl]
  rw [utf8_roundtrip]
  exact loads_dumpsVal (Json.obj doc)

/-- C8 witness: the compressed serialization of the `pull()` fixture's
snapshot document decompresses and parses back to the same document. -/
theorem c8_witness :
    (gzipDecompress (gzipCompress (utf8Encode (dumpsVal (Json.obj c3doc))))).bind
        (fun bs => loads (utf8Decode bs)) = some (Json.obj c3doc) :=
  c8_snapshot_roundtrip c3doc (by simp [jWF, c3doc, c3body, strWF, asciiOk])

end Spotify
